import Mathlib

/-!
# sqlmon: a callback-instrumented wrapper around a SQL driver

A shallow embedding of `driver.go`.

* A Go `error` is `Option String`; `none` is `nil`.
* The outside world (the state the origin driver and the callbacks act on,
  and the wall clock) is a type `σ` with a clock reading `Clock.now`.
  Origin methods are state transformers on `σ`.
* A call of a callback leaves a world and either returns or panics; the nil
  func value is `Callback.nil`, whose call panics at once.
* `*Driver` is an address into the heap `State.drivers`; all wrappers made
  from one driver share its registry through that address.
* A Go map is `Registry`: the nil map or a map. Reading the nil map finds
  nothing; assigning to an entry of the nil map panics.
* An interface value that may be `nil` is an `Option`. Calling a method on
  `nil`, dereferencing an address that holds no driver, and a callback that
  panics make the method panic: its `Outcome` has no result, and holds the
  state at the panic.
* `State.history` is a history variable: every call `cb(op, dur, err)` of a
  callback value appends the arguments it was called with.
* Neither callbacks nor origin methods reach the heap of drivers (they
  register no callback themselves), and origin methods return.
-/

namespace Sqlmon

/-- Go `error`; `none` is `nil`. -/
abbrev Error := Option String

/-- Go `time.Time`, as a number of nanoseconds. -/
abbrev Time := Int

/-- Go `time.Duration`. -/
abbrev Duration := Int

/-- Go `driver.Value`, passed through untouched by the wrappers. -/
abbrev Value := Int

/-- Go `driver.Result`, an interface value of the origin (`none` is `nil`). -/
abbrev Result := Option Nat

/-- Go `driver.Rows`, an interface value of the origin (`none` is `nil`). -/
abbrev Rows := Option Nat

/-- The wall clock of a world: `time.Now()`. -/
class Clock (σ : Type) where
  /-- Reading of the clock in a world. -/
  now : σ → Time

/-- How a call of a callback ends: the world it leaves, and whether it
returned (`false`: it panicked). -/
structure Ran (σ : Type) where
  world : σ
  returned : Bool

/-- Callback is a function that is executed at a certain moment:
`func(op string, dur time.Duration, err error)`, acting on the world. -/
abbrev Callback (σ : Type) := String → Duration → Error → σ → Ran σ

/-- The nil func value: calling it panics, and changes nothing. -/
def Callback.nil {σ : Type} : Callback σ := fun _ _ _ w => { world := w, returned := false }

/-- Go `map[string]Callback`: the nil map, or a map with its entries. -/
inductive Registry (σ : Type) where
  | nil
  | map (entries : String → Option (Callback σ))

/-- The read `cb, ok := m[key]`; the nil map has no entry. -/
def Registry.get {σ : Type} : Registry σ → String → Option (Callback σ)
  | .nil, _ => none
  | .map entries, key => entries key

/-- Set of available callback types. -/
def OnDriverOpen : String := "driver.Open"
/-- Key of `Conn.Begin`. -/
def OnConnBegin : String := "conn.Begin"
/-- Key of `Conn.Close`. -/
def OnConnClose : String := "conn.Close"
/-- Key of `Conn.Prepare`. -/
def OnConnPrepare : String := "conn.Prepare"
/-- Key of `Tx.Commit`. -/
def OnTxCommit : String := "tx.Commit"
/-- Key of `Tx.Rollback`. -/
def OnTxRollback : String := "tx.Rollback"
/-- Key of `Stmt.Close`. -/
def OnStmtClose : String := "stmt.Close"
/-- Key of `Stmt.Exec`. -/
def OnStmtExec : String := "stmt.Exec"
/-- Key of `Stmt.Query`. -/
def OnStmtQuery : String := "stmt.Query"

/-- The origin `driver.Stmt` interface: its four methods. -/
structure OriginStmt (σ : Type) where
  Close : σ → Error × σ
  NumInput : σ → Int × σ
  Exec : List Value → σ → (Result × Error) × σ
  Query : List Value → σ → (Rows × Error) × σ

/-- The origin `driver.Tx` interface. -/
structure OriginTx (σ : Type) where
  Commit : σ → Error × σ
  Rollback : σ → Error × σ

/-- The origin `driver.Conn` interface. -/
structure OriginConn (σ : Type) where
  Begin : σ → (Option (OriginTx σ) × Error) × σ
  Close : σ → Error × σ
  Prepare : String → σ → (Option (OriginStmt σ) × Error) × σ

/-- The origin `driver.Driver` interface. -/
structure OriginDriver (σ : Type) where
  Open : String → σ → (Option (OriginConn σ) × Error) × σ

/-- Driver is a wrapper for driver.Driver, that has a set of callbacks
for different operations. -/
structure Driver (σ : Type) where
  origin : Option (OriginDriver σ)
  callbacks : Registry σ

/-- A `*Driver`: the address of a driver in the heap. -/
abbrev Ptr := Nat

/-- Conn is a wrapper for driver.Conn. -/
structure Conn (σ : Type) where
  driver : Ptr
  origin : Option (OriginConn σ)

/-- Tx is a wrapper for driver.Tx. -/
structure Tx (σ : Type) where
  driver : Ptr
  origin : Option (OriginTx σ)

/-- Stmt is a wrapper for driver.Stmt. -/
structure Stmt (σ : Type) where
  driver : Ptr
  origin : Option (OriginStmt σ)

/-- One recorded call of a callback value: the arguments it received. -/
structure Invocation where
  op : String
  dur : Duration
  err : Error
deriving DecidableEq, Repr

/-- The program state: the heap of drivers, the world, and the history of
callback calls. -/
structure State (σ : Type) where
  drivers : List (Driver σ)
  world : σ
  history : List Invocation

/-- How a call of a method ends: with the values it returns, or, when it
panics, with no result; and the state it leaves either way. -/
structure Outcome (α : Type) (σ : Type) where
  result : Option α
  state : State σ

/-- The `driver.Tx` value `Conn.Begin` hands back: either the value the
origin returned, as it is, or a `*Tx` wrapper. -/
inductive TxValue (σ : Type) where
  | origin (tx : Option (OriginTx σ))
  | wrapper (tx : Tx σ)

/-- The call `cb(op, dur, err)` of a callback value: the state it leaves, and
whether it returned. -/
def Callback.call {σ : Type} (cb : Callback σ) (op : String) (dur : Duration) (err : Error)
    (s : State σ) : State σ × Bool :=
  ({ s with world := (cb op dur err s.world).world,
            history := s.history ++ [⟨op, dur, err⟩] },
    (cb op dur err s.world).returned)

/-- Wrap wraps given database driver and returns a driver, that can
uses callbacks for operations. The new driver is allocated at the end of
the heap. -/
def Wrap {σ : Type} (drv : Option (OriginDriver σ)) (s : State σ) : Ptr × State σ :=
  (s.drivers.length,
    { s with drivers := s.drivers ++ [{ origin := drv, callbacks := .map (fun _ => none) }] })

/-- RegisterCallback adds callback function to driver: `d.callbacks[typ] = cb`. -/
def Driver.RegisterCallback {σ : Type} (d : Ptr) (typ : String) (cb : Callback σ)
    (s : State σ) : Outcome Unit σ :=
  match s.drivers[d]? with
  | none => { result := none, state := s }
  | some drv =>
    match drv.callbacks with
    | .nil => { result := none, state := s }
    | .map entries =>
      let drv1 : Driver σ := { drv with callbacks := .map (Function.update entries typ (some cb)) }
      { result := some (), state := { s with drivers := s.drivers.set d drv1 } }

/-- Open returns a new connection to the database. -/
def Driver.Open {σ : Type} [Clock σ] (d : Ptr) (name : String) (s : State σ) :
    Outcome (Conn σ × Error) σ :=
  let t := Clock.now s.world
  match s.drivers[d]? with
  | none => { result := none, state := s }
  | some drv =>
    match drv.origin with
    | none => { result := none, state := s }
    | some o =>
      match o.Open name s.world with
      | ((cn, err), w) =>
        match (match drv.callbacks.get OnDriverOpen with
              | some cb =>
                Callback.call cb OnDriverOpen (Clock.now w - t) err { s with world := w }
              | none => ({ s with world := w }, true)) with
        | (s1, false) => { result := none, state := s1 }
        | (s1, true) => { result := some ({ driver := d, origin := cn }, none), state := s1 }

/-- Begin implements driver.Conn interface. -/
def Conn.Begin {σ : Type} [Clock σ] (cn : Conn σ) (s : State σ) :
    Outcome (TxValue σ × Error) σ :=
  let t := Clock.now s.world
  match cn.origin with
  | none => { result := none, state := s }
  | some o =>
    match o.Begin s.world with
    | ((tx, err), w) =>
      match s.drivers[cn.driver]? with
      | none => { result := none, state := { s with world := w } }
      | some drv =>
        match (match drv.callbacks.get OnConnBegin with
              | some cb =>
                Callback.call cb OnConnBegin (Clock.now w - t) err { s with world := w }
              | none => ({ s with world := w }, true)) with
        | (s1, false) => { result := none, state := s1 }
        | (s1, true) =>
          if err ≠ none then
            { result := some (TxValue.origin tx, err), state := s1 }
          else
            { result := some (TxValue.wrapper { driver := cn.driver, origin := tx }, none),
              state := s1 }

/-- Close implements driver.Conn interface. -/
def Conn.Close {σ : Type} [Clock σ] (cn : Conn σ) (s : State σ) : Outcome Error σ :=
  let t := Clock.now s.world
  match cn.origin with
  | none => { result := none, state := s }
  | some o =>
    match o.Close s.world with
    | (err, w) =>
      match s.drivers[cn.driver]? with
      | none => { result := none, state := { s with world := w } }
      | some drv =>
        match (match drv.callbacks.get OnConnClose with
              | some cb =>
                Callback.call cb OnConnClose (Clock.now w - t) err { s with world := w }
              | none => ({ s with world := w }, true)) with
        | (s1, false) => { result := none, state := s1 }
        | (s1, true) => { result := some err, state := s1 }

/-- Prepare implements driver.Conn interface. -/
def Conn.Prepare {σ : Type} [Clock σ] (cn : Conn σ) (q : String) (s : State σ) :
    Outcome (Stmt σ × Error) σ :=
  let t := Clock.now s.world
  match cn.origin with
  | none => { result := none, state := s }
  | some o =>
    match o.Prepare q s.world with
    | ((stmt, err), w) =>
      match s.drivers[cn.driver]? with
      | none => { result := none, state := { s with world := w } }
      | some drv =>
        match (match drv.callbacks.get OnConnPrepare with
              | some cb =>
                Callback.call cb OnConnPrepare (Clock.now w - t) err { s with world := w }
              | none => ({ s with world := w }, true)) with
        | (s1, false) => { result := none, state := s1 }
        | (s1, true) =>
          { result := some ({ driver := cn.driver, origin := stmt }, none), state := s1 }

/-- Commit implements driver.Tx interface. -/
def Tx.Commit {σ : Type} [Clock σ] (tx : Tx σ) (s : State σ) : Outcome Error σ :=
  let t := Clock.now s.world
  match tx.origin with
  | none => { result := none, state := s }
  | some o =>
    match o.Commit s.world with
    | (err, w) =>
      match s.drivers[tx.driver]? with
      | none => { result := none, state := { s with world := w } }
      | some drv =>
        match (match drv.callbacks.get OnTxCommit with
              | some cb =>
                Callback.call cb OnTxCommit (Clock.now w - t) err { s with world := w }
              | none => ({ s with world := w }, true)) with
        | (s1, false) => { result := none, state := s1 }
        | (s1, true) => { result := some err, state := s1 }

/-- Rollback implements driver.Tx interface. -/
def Tx.Rollback {σ : Type} [Clock σ] (tx : Tx σ) (s : State σ) : Outcome Error σ :=
  let t := Clock.now s.world
  match tx.origin with
  | none => { result := none, state := s }
  | some o =>
    match o.Rollback s.world with
    | (err, w) =>
      match s.drivers[tx.driver]? with
      | none => { result := none, state := { s with world := w } }
      | some drv =>
        match (match drv.callbacks.get OnTxRollback with
              | some cb =>
                Callback.call cb OnTxRollback (Clock.now w - t) err { s with world := w }
              | none => ({ s with world := w }, true)) with
        | (s1, false) => { result := none, state := s1 }
        | (s1, true) => { result := some err, state := s1 }

/-- Close implements driver.Stmt interface. The registry is consulted under
`OnConnBegin`, as in the source. -/
def Stmt.Close {σ : Type} [Clock σ] (stmt : Stmt σ) (s : State σ) : Outcome Error σ :=
  let t := Clock.now s.world
  match stmt.origin with
  | none => { result := none, state := s }
  | some o =>
    match o.Close s.world with
    | (err, w) =>
      match s.drivers[stmt.driver]? with
      | none => { result := none, state := { s with world := w } }
      | some drv =>
        match (match drv.callbacks.get OnConnBegin with
              | some cb =>
                Callback.call cb OnConnBegin (Clock.now w - t) err { s with world := w }
              | none => ({ s with world := w }, true)) with
        | (s1, false) => { result := none, state := s1 }
        | (s1, true) => { result := some err, state := s1 }

/-- NumInput implements driver.Stmt interface. -/
def Stmt.NumInput {σ : Type} (stmt : Stmt σ) (s : State σ) : Outcome Int σ :=
  match stmt.origin with
  | none => { result := none, state := s }
  | some o =>
    match o.NumInput s.world with
    | (n, w) => { result := some n, state := { s with world := w } }

/-- Exec implements driver.Stmt interface. -/
def Stmt.Exec {σ : Type} [Clock σ] (stmt : Stmt σ) (args : List Value) (s : State σ) :
    Outcome (Result × Error) σ :=
  let t := Clock.now s.world
  match stmt.origin with
  | none => { result := none, state := s }
  | some o =>
    match o.Exec args s.world with
    | ((res, err), w) =>
      match s.drivers[stmt.driver]? with
      | none => { result := none, state := { s with world := w } }
      | some drv =>
        match (match drv.callbacks.get OnStmtExec with
              | some cb =>
                Callback.call cb OnStmtExec (Clock.now w - t) err { s with world := w }
              | none => ({ s with world := w }, true)) with
        | (s1, false) => { result := none, state := s1 }
        | (s1, true) => { result := some (res, err), state := s1 }

/-- Query implements driver.Stmt interface. -/
def Stmt.Query {σ : Type} [Clock σ] (stmt : Stmt σ) (args : List Value) (s : State σ) :
    Outcome (Rows × Error) σ :=
  let t := Clock.now s.world
  match stmt.origin with
  | none => { result := none, state := s }
  | some o =>
    match o.Query args s.world with
    | ((rows, err), w) =>
      match s.drivers[stmt.driver]? with
      | none => { result := none, state := { s with world := w } }
      | some drv =>
        match (match drv.callbacks.get OnStmtQuery with
              | some cb =>
                Callback.call cb OnStmtQuery (Clock.now w - t) err { s with world := w }
              | none => ({ s with world := w }, true)) with
        | (s1, false) => { result := none, state := s1 }
        | (s1, true) => { result := some (rows, err), state := s1 }

/-! ## A client of the wrapped driver

A finite sequence of driver-level calls made on one wrapped driver and on
the wrappers obtained from it, the way `database/sql` drives it in the
tests. Wrappers are named by the order in which the client obtained them. -/

/-- One driver-level call. -/
inductive Call where
  | Open (name : String)
  | Begin (cn : Nat)
  | ConnClose (cn : Nat)
  | Prepare (cn : Nat) (q : String)
  | Commit (tx : Nat)
  | Rollback (tx : Nat)
  | StmtClose (stmt : Nat)
  | NumInput (stmt : Nat)
  | Exec (stmt : Nat) (args : List Value)
  | Query (stmt : Nat) (args : List Value)
deriving DecidableEq, Repr

/-- The operation name a call's method belongs to; `NumInput` has none. -/
def Call.name : Call → Option String
  | .Open _ => some OnDriverOpen
  | .Begin _ => some OnConnBegin
  | .ConnClose _ => some OnConnClose
  | .Prepare _ _ => some OnConnPrepare
  | .Commit _ => some OnTxCommit
  | .Rollback _ => some OnTxRollback
  | .StmtClose _ => some OnStmtClose
  | .NumInput _ => none
  | .Exec _ _ => some OnStmtExec
  | .Query _ _ => some OnStmtQuery

/-- Number of calls in a sequence of the method an operation name belongs to. -/
def callCount (op : String) (calls : List Call) : Nat :=
  (calls.filter (fun c => c.name = some op)).length

/-- What a client holds: the program state and the wrappers it was handed. -/
structure Client (σ : Type) where
  state : State σ
  conns : List (Conn σ)
  txs : List (Tx σ)
  stmts : List (Stmt σ)

/-- The client makes one call on driver `d` or on a wrapper it holds: the
client afterwards, and whether the call returned (`false` when it panicked,
or could not be made because the client holds no such wrapper). A
transaction is kept only when `Begin` handed back a wrapper. -/
def Client.step {σ : Type} [Clock σ] (d : Ptr) (c : Client σ) : Call → Client σ × Bool
  | .Open name =>
    match Driver.Open d name c.state with
    | { result := none, state := s } => ({ c with state := s }, false)
    | { result := some (cn, _), state := s } =>
      ({ c with state := s, conns := c.conns ++ [cn] }, true)
  | .Begin i =>
    match c.conns[i]? with
    | none => (c, false)
    | some cn =>
      match Conn.Begin cn c.state with
      | { result := none, state := s } => ({ c with state := s }, false)
      | { result := some (TxValue.wrapper tx, _), state := s } =>
        ({ c with state := s, txs := c.txs ++ [tx] }, true)
      | { result := some (TxValue.origin _, _), state := s } => ({ c with state := s }, true)
  | .ConnClose i =>
    match c.conns[i]? with
    | none => (c, false)
    | some cn =>
      match Conn.Close cn c.state with
      | { result := r, state := s } => ({ c with state := s }, r.isSome)
  | .Prepare i q =>
    match c.conns[i]? with
    | none => (c, false)
    | some cn =>
      match Conn.Prepare cn q c.state with
      | { result := none, state := s } => ({ c with state := s }, false)
      | { result := some (stmt, _), state := s } =>
        ({ c with state := s, stmts := c.stmts ++ [stmt] }, true)
  | .Commit i =>
    match c.txs[i]? with
    | none => (c, false)
    | some tx =>
      match Tx.Commit tx c.state with
      | { result := r, state := s } => ({ c with state := s }, r.isSome)
  | .Rollback i =>
    match c.txs[i]? with
    | none => (c, false)
    | some tx =>
      match Tx.Rollback tx c.state with
      | { result := r, state := s } => ({ c with state := s }, r.isSome)
  | .StmtClose i =>
    match c.stmts[i]? with
    | none => (c, false)
    | some stmt =>
      match Stmt.Close stmt c.state with
      | { result := r, state := s } => ({ c with state := s }, r.isSome)
  | .NumInput i =>
    match c.stmts[i]? with
    | none => (c, false)
    | some stmt =>
      match Stmt.NumInput stmt c.state with
      | { result := r, state := s } => ({ c with state := s }, r.isSome)
  | .Exec i args =>
    match c.stmts[i]? with
    | none => (c, false)
    | some stmt =>
      match Stmt.Exec stmt args c.state with
      | { result := r, state := s } => ({ c with state := s }, r.isSome)
  | .Query i args =>
    match c.stmts[i]? with
    | none => (c, false)
    | some stmt =>
      match Stmt.Query stmt args c.state with
      | { result := r, state := s } => ({ c with state := s }, r.isSome)

/-- The client makes the calls of a sequence in order; the run stops after the
first call that panics, in the state at the panic, and before the first
call that cannot be made. -/
def Client.run {σ : Type} [Clock σ] (d : Ptr) : List Call → Client σ → Client σ
  | [], c => c
  | k :: ks, c =>
    match c.step d k with
    | (c1, false) => c1
    | (c1, true) => Client.run d ks c1

/-- A client that holds nothing but the driver. -/
def Client.new {σ : Type} (s : State σ) : Client σ :=
  { state := s, conns := [], txs := [], stmts := [] }

/-- Every wrapper the client holds was made from the driver at address `d`. -/
def Client.Descends {σ : Type} (d : Ptr) (c : Client σ) : Prop :=
  (∀ cn ∈ c.conns, cn.driver = d) ∧ (∀ tx ∈ c.txs, tx.driver = d) ∧
    (∀ stmt ∈ c.stmts, stmt.driver = d)

/-! ## The fakes of the test suite -/

/-- The `stmtFake` of the tests. -/
def stmtFake {σ : Type} : OriginStmt σ where
  Close := fun w => (none, w)
  NumInput := fun w => (0, w)
  Exec := fun _ w => ((none, none), w)
  Query := fun _ w => ((some 0, none), w)

/-- The `txFake` of the tests. -/
def txFake {σ : Type} : OriginTx σ where
  Commit := fun w => (none, w)
  Rollback := fun w => (none, w)

/-- The `connFake` of the tests. -/
def connFake {σ : Type} : OriginConn σ where
  Begin := fun w => ((some txFake, none), w)
  Close := fun w => (none, w)
  Prepare := fun _ w => ((some stmtFake, none), w)

/-- The `driverFake` of the tests. -/
def driverFake {σ : Type} : OriginDriver σ where
  Open := fun _ w => ((some connFake, none), w)

/-- The world of the tests: a clock and the `counter` map of `testCallbacker`
(an absent key counts 0). -/
structure TestWorld where
  time : Time
  counter : String → Nat

instance : Clock TestWorld := ⟨TestWorld.time⟩

/-- The counting callback of the tests: `cb.counter[op]++`. -/
def testCallbacker.callback : Callback TestWorld :=
  fun op _ _ w =>
    { world := { w with counter := Function.update w.counter op (w.counter op + 1) },
      returned := true }

/-- The nine operation names, in the order of the source. -/
def operationNames : List String :=
  [OnDriverOpen, OnConnBegin, OnConnClose, OnConnPrepare, OnTxCommit, OnTxRollback,
   OnStmtClose, OnStmtExec, OnStmtQuery]

/-- The set-up of `TestDriverCallbacks`: wrap `driverFake` and register the
counting callback under all nine names. -/
def testSetup : Ptr × State TestWorld :=
  let s0 : State TestWorld :=
    { drivers := [], world := { time := 0, counter := fun _ => 0 }, history := [] }
  match Wrap (some driverFake) s0 with
  | (drv, s) =>
    (drv, operationNames.foldl
      (fun s typ => (Driver.RegisterCallback drv typ testCallbacker.callback s).state) s)

/-- The counters after the client makes a sequence of calls on the test set-up. -/
def testCounters (calls : List Call) : String → Nat :=
  (Client.run testSetup.1 calls (Client.new testSetup.2)).state.world.counter

/-! ## Vocabulary of the statements -/

/-- The block `if cb, ok := callbacks[key]; ok { cb(key, time.Since(t), err) }`
run in state `s` on the registry of `drv`, where `t` is the start time: the
state it leaves, and whether it ran to its end (`false`: the callback
panicked). -/
def notify {σ : Type} [Clock σ] (drv : Driver σ) (key : String) (t : Time) (err : Error)
    (s : State σ) : State σ × Bool :=
  match drv.callbacks.get key with
  | some cb => Callback.call cb key (Clock.now s.world - t) err s
  | none => (s, true)

/-- State `s1` is reached from `s` by an origin call that left the world `w`
and the error `err`, followed by exactly one callback call, `cb(op, d, err)`
with `d` the time elapsed since the method started, and by nothing else. -/
def InvokedOnce {σ : Type} [Clock σ] (cb : Callback σ) (op : String) (err : Error) (w : σ)
    (s s1 : State σ) : Prop :=
  s1.world = (cb op (Clock.now w - Clock.now s.world) err w).world ∧
  s1.history = s.history ++ [⟨op, Clock.now w - Clock.now s.world, err⟩] ∧
  s1.drivers = s.drivers

/-- State `s1` is reached from `s` by an origin call that left the world `w`,
and no callback was called. -/
def InvokedNone {σ : Type} (w : σ) (s s1 : State σ) : Prop :=
  s1.world = w ∧ s1.history = s.history ∧ s1.drivers = s.drivers

/-- Every callback of the registry is a func value whose calls return. -/
def Registry.AllReturn {σ : Type} (r : Registry σ) : Prop :=
  ∀ key cb, r.get key = some cb → ∀ op dur err w, (cb op dur err w).returned = true

/-- The callback registered on `drv` under `key`, if there is one, returns
when called with these arguments in world `w`. -/
def CallbackReturns {σ : Type} (drv : Driver σ) (key : String) (dur : Duration) (err : Error)
    (w : σ) : Prop :=
  ∀ cb, drv.callbacks.get key = some cb → (cb key dur err w).returned = true

/-- A `driver.Tx` value is the nil interface. -/
def TxValue.isNil {σ : Type} : TxValue σ → Bool
  | .origin none => true
  | _ => false

/-! ## Fixtures: origins that fail, and callbacks that record -/

/-- A world that records what every callback saw: the key the callback was
registered under, and the operation name and error it was called with. -/
structure Recorder where
  time : Time
  seen : List (String × String × Error)
deriving DecidableEq, Repr

instance : Clock Recorder := ⟨Recorder.time⟩

/-- The callback registered under `key` in the recording registries. -/
def Recorder.callback (key : String) : Callback Recorder :=
  fun op _ err w => { world := { w with seen := w.seen ++ [(key, op, err)] }, returned := true }

/-- A callback that records and then panics. -/
def Recorder.panicking (key : String) : Callback Recorder :=
  fun op _ err w => { world := { w with seen := w.seen ++ [(key, op, err)] }, returned := false }

/-- The entries of a registry with a recording callback under every key of
`keys` and nothing else. -/
def Recorder.registry (keys : List String) : String → Option (Callback Recorder) :=
  fun k => if k ∈ keys then some (Recorder.callback k) else none

/-- An origin statement whose every method fails (and takes 5ns). -/
def stmtFailing : OriginStmt Recorder where
  Close := fun w => (some "close failed", { w with time := w.time + 5 })
  NumInput := fun w => (3, w)
  Exec := fun _ w => ((some 7, some "exec failed"), { w with time := w.time + 5 })
  Query := fun _ w => ((some 8, some "query failed"), { w with time := w.time + 5 })

/-- An origin transaction whose every method fails. -/
def txFailing : OriginTx Recorder where
  Commit := fun w => (some "commit failed", { w with time := w.time + 5 })
  Rollback := fun w => (some "rollback failed", { w with time := w.time + 5 })

/-- An origin connection whose every method fails; `Begin` and `Prepare`
hand back an object together with the error. -/
def connFailing : OriginConn Recorder where
  Begin := fun w => ((some txFailing, some "begin failed"), { w with time := w.time + 5 })
  Close := fun w => (some "close failed", { w with time := w.time + 5 })
  Prepare := fun _ w => ((some stmtFailing, some "prepare failed"), { w with time := w.time + 5 })

/-- An origin driver whose `Open` fails with no connection. -/
def driverFailing : OriginDriver Recorder where
  Open := fun _ w => ((none, some "connection refused"), { w with time := w.time + 5 })

/-- A state with one driver at address 0, wrapping `origin` with a recording
callback under each of `keys`. -/
def Recorder.state (origin : OriginDriver Recorder) (keys : List String) : State Recorder :=
  { drivers := [{ origin := some origin, callbacks := .map (Recorder.registry keys) }],
    world := { time := 100, seen := [] },
    history := [] }

/-- The failing driver at address 0 with a recording callback under each of
the nine operation names. -/
def Recorder.full : State Recorder := Recorder.state driverFailing operationNames

/-- A state with no driver yet, an empty record and an empty history. -/
def Recorder.empty : State Recorder :=
  { drivers := [], world := { time := 100, seen := [] }, history := [] }

/-- A state whose one driver, at address 0, is the zero value `&Driver{}`: no
origin, and the nil map. -/
def Recorder.zeroDriver : State Recorder :=
  { drivers := [{ origin := none, callbacks := .nil }],
    world := { time := 100, seen := [] },
    history := [] }

/-- The failing driver at address 0 after `RegisterCallback(OnConnClose, nil)`. -/
def Recorder.nilCallback : State Recorder :=
  (Driver.RegisterCallback 0 OnConnClose Callback.nil (Recorder.state driverFailing [])).state

/-- The failing driver at address 0 after registering, under `OnConnClose`, a
callback that records and then panics. -/
def Recorder.panickingCallback : State Recorder :=
  (Driver.RegisterCallback 0 OnConnClose (Recorder.panicking OnConnClose)
    (Recorder.state driverFailing [])).state

/-- The failing driver at address 0 after `RegisterCallback(OnConnBegin, nil)`. -/
def Recorder.nilBegin : State Recorder :=
  (Driver.RegisterCallback 0 OnConnBegin Callback.nil (Recorder.state driverFailing [])).state

/-- The failing driver at address 0 after registering under `OnStmtClose` first
the recording callback "old" and then the recording callback "new". -/
def Recorder.stmtCloseTwice : State Recorder :=
  (Driver.RegisterCallback 0 OnStmtClose (Recorder.callback "new")
    (Driver.RegisterCallback 0 OnStmtClose (Recorder.callback "old")
      (Recorder.state driverFailing [])).state).state

/-- The driver-level calls of the test "plain exec", as the claim lists them. -/
def plainExec : List Call :=
  [.Open "", .Prepare 0 "fake query", .Exec 0 [], .StmtClose 0]

/-- The driver-level calls of the test "commit prepared statement exec in
transaction", as the claim lists them. -/
def commitExec : List Call :=
  [.Open "", .Begin 0, .Prepare 0 "fake query", .Exec 0 [], .StmtClose 0, .Commit 0]

/-! ## What each method computes -/

theorem stmtNumInput_eq {σ : Type} (stmt : Stmt σ) (s : State σ) (o : OriginStmt σ)
    (ho : stmt.origin = some o) :
    Stmt.NumInput stmt s =
      { result := some (o.NumInput s.world).1,
        state := { s with world := (o.NumInput s.world).2 } } := by
  simp only [Stmt.NumInput, ho]

theorem stmtNumInput_state {σ : Type} (stmt : Stmt σ) (s : State σ) :
    (Stmt.NumInput stmt s).state.drivers = s.drivers ∧
      (Stmt.NumInput stmt s).state.history = s.history := by
  unfold Stmt.NumInput
  split <;> exact ⟨rfl, rfl⟩

section Methods

variable {σ : Type} [Clock σ]

theorem notify_some (drv : Driver σ) (key : String) (t : Time) (err : Error) (s : State σ)
    (cb : Callback σ) (h : drv.callbacks.get key = some cb) :
    notify drv key t err s = Callback.call cb key (Clock.now s.world - t) err s := by
  simp [notify, h]

theorem notify_none (drv : Driver σ) (key : String) (t : Time) (err : Error) (s : State σ)
    (h : drv.callbacks.get key = none) : notify drv key t err s = (s, true) := by
  simp [notify, h]

theorem notify_drivers (drv : Driver σ) (key : String) (t : Time) (err : Error) (s : State σ) :
    (notify drv key t err s).1.drivers = s.drivers := by
  unfold notify; split <;> rfl

theorem notify_invokedOnce (drv : Driver σ) (key : String) (err : Error) (w : σ) (s : State σ)
    (cb : Callback σ) (h : drv.callbacks.get key = some cb) :
    InvokedOnce cb key err w s
        (notify drv key (Clock.now s.world) err { s with world := w }).1 ∧
      (notify drv key (Clock.now s.world) err { s with world := w }).2
        = (cb key (Clock.now w - Clock.now s.world) err w).returned := by
  simp [notify, h, InvokedOnce, Callback.call]

theorem notify_invokedNone (drv : Driver σ) (key : String) (err : Error) (w : σ) (s : State σ)
    (h : drv.callbacks.get key = none) :
    InvokedNone w s (notify drv key (Clock.now s.world) err { s with world := w }).1 ∧
      (notify drv key (Clock.now s.world) err { s with world := w }).2 = true := by
  simp [notify, h, InvokedNone]

theorem notify_allReturn (drv : Driver σ) (key : String) (t : Time) (err : Error) (s : State σ)
    (h : drv.callbacks.AllReturn) : (notify drv key t err s).2 = true := by
  unfold notify
  split
  · next cb hcb => exact h key cb hcb _ _ _ _
  · rfl

theorem connBegin_eq (cn : Conn σ) (s : State σ) (drv : Driver σ) (o : OriginConn σ)
    (hd : s.drivers[cn.driver]? = some drv) (ho : cn.origin = some o) :
    Conn.Begin cn s =
      { result :=
          if (notify drv OnConnBegin (Clock.now s.world) (o.Begin s.world).1.2
            { s with world := (o.Begin s.world).2 }).2 = true
          then some (if (o.Begin s.world).1.2 ≠ none then (TxValue.origin (o.Begin s.world).1.1, (o.Begin s.world).1.2)
            else (TxValue.wrapper { driver := cn.driver, origin := (o.Begin s.world).1.1 }, none))
          else none,
        state :=
          (notify drv OnConnBegin (Clock.now s.world) (o.Begin s.world).1.2
            { s with world := (o.Begin s.world).2 }).1 } := by
  simp only [Conn.Begin, hd, ho, notify]
  split <;> split <;> simp_all

theorem connBegin_frame (cn : Conn σ) (s : State σ) :
    (Conn.Begin cn s).state.drivers = s.drivers ∧
      (∀ drv, s.drivers[cn.driver]? = some drv → (∀ key, drv.callbacks.get key = none) →
        (Conn.Begin cn s).state.history = s.history) := by
  cases ho : cn.origin with
  | none => simp [Conn.Begin, ho]
  | some o =>
    cases hd : s.drivers[cn.driver]? with
    | none => simp [Conn.Begin, ho, hd]
    | some drv =>
      rw [connBegin_eq cn s drv o hd ho]
      refine ⟨notify_drivers _ _ _ _ _, ?_⟩
      intro drv0 h0 hempty
      cases h0
      simp only [notify_none _ _ _ _ _ (hempty _)]

theorem connClose_eq (cn : Conn σ) (s : State σ) (drv : Driver σ) (o : OriginConn σ)
    (hd : s.drivers[cn.driver]? = some drv) (ho : cn.origin = some o) :
    Conn.Close cn s =
      { result :=
          if (notify drv OnConnClose (Clock.now s.world) (o.Close s.world).1
            { s with world := (o.Close s.world).2 }).2 = true
          then some (o.Close s.world).1
          else none,
        state :=
          (notify drv OnConnClose (Clock.now s.world) (o.Close s.world).1
            { s with world := (o.Close s.world).2 }).1 } := by
  simp only [Conn.Close, hd, ho, notify]
  split <;> simp_all

theorem connClose_frame (cn : Conn σ) (s : State σ) :
    (Conn.Close cn s).state.drivers = s.drivers ∧
      (∀ drv, s.drivers[cn.driver]? = some drv → (∀ key, drv.callbacks.get key = none) →
        (Conn.Close cn s).state.history = s.history) := by
  cases ho : cn.origin with
  | none => simp [Conn.Close, ho]
  | some o =>
    cases hd : s.drivers[cn.driver]? with
    | none => simp [Conn.Close, ho, hd]
    | some drv =>
      rw [connClose_eq cn s drv o hd ho]
      refine ⟨notify_drivers _ _ _ _ _, ?_⟩
      intro drv0 h0 hempty
      cases h0
      simp only [notify_none _ _ _ _ _ (hempty _)]

theorem connPrepare_eq (cn : Conn σ) (q : String) (s : State σ) (drv : Driver σ) (o : OriginConn σ)
    (hd : s.drivers[cn.driver]? = some drv) (ho : cn.origin = some o) :
    Conn.Prepare cn q s =
      { result :=
          if (notify drv OnConnPrepare (Clock.now s.world) (o.Prepare q s.world).1.2
            { s with world := (o.Prepare q s.world).2 }).2 = true
          then some ({ driver := cn.driver, origin := (o.Prepare q s.world).1.1 }, none)
          else none,
        state :=
          (notify drv OnConnPrepare (Clock.now s.world) (o.Prepare q s.world).1.2
            { s with world := (o.Prepare q s.world).2 }).1 } := by
  simp only [Conn.Prepare, hd, ho, notify]
  split <;> simp_all

theorem connPrepare_frame (cn : Conn σ) (q : String) (s : State σ) :
    (Conn.Prepare cn q s).state.drivers = s.drivers ∧
      (∀ drv, s.drivers[cn.driver]? = some drv → (∀ key, drv.callbacks.get key = none) →
        (Conn.Prepare cn q s).state.history = s.history) := by
  cases ho : cn.origin with
  | none => simp [Conn.Prepare, ho]
  | some o =>
    cases hd : s.drivers[cn.driver]? with
    | none => simp [Conn.Prepare, ho, hd]
    | some drv =>
      rw [connPrepare_eq cn q s drv o hd ho]
      refine ⟨notify_drivers _ _ _ _ _, ?_⟩
      intro drv0 h0 hempty
      cases h0
      simp only [notify_none _ _ _ _ _ (hempty _)]

theorem txCommit_eq (tx : Tx σ) (s : State σ) (drv : Driver σ) (o : OriginTx σ)
    (hd : s.drivers[tx.driver]? = some drv) (ho : tx.origin = some o) :
    Tx.Commit tx s =
      { result :=
          if (notify drv OnTxCommit (Clock.now s.world) (o.Commit s.world).1
            { s with world := (o.Commit s.world).2 }).2 = true
          then some (o.Commit s.world).1
          else none,
        state :=
          (notify drv OnTxCommit (Clock.now s.world) (o.Commit s.world).1
            { s with world := (o.Commit s.world).2 }).1 } := by
  simp only [Tx.Commit, hd, ho, notify]
  split <;> simp_all

theorem txCommit_frame (tx : Tx σ) (s : State σ) :
    (Tx.Commit tx s).state.drivers = s.drivers ∧
      (∀ drv, s.drivers[tx.driver]? = some drv → (∀ key, drv.callbacks.get key = none) →
        (Tx.Commit tx s).state.history = s.history) := by
  cases ho : tx.origin with
  | none => simp [Tx.Commit, ho]
  | some o =>
    cases hd : s.drivers[tx.driver]? with
    | none => simp [Tx.Commit, ho, hd]
    | some drv =>
      rw [txCommit_eq tx s drv o hd ho]
      refine ⟨notify_drivers _ _ _ _ _, ?_⟩
      intro drv0 h0 hempty
      cases h0
      simp only [notify_none _ _ _ _ _ (hempty _)]

theorem txRollback_eq (tx : Tx σ) (s : State σ) (drv : Driver σ) (o : OriginTx σ)
    (hd : s.drivers[tx.driver]? = some drv) (ho : tx.origin = some o) :
    Tx.Rollback tx s =
      { result :=
          if (notify drv OnTxRollback (Clock.now s.world) (o.Rollback s.world).1
            { s with world := (o.Rollback s.world).2 }).2 = true
          then some (o.Rollback s.world).1
          else none,
        state :=
          (notify drv OnTxRollback (Clock.now s.world) (o.Rollback s.world).1
            { s with world := (o.Rollback s.world).2 }).1 } := by
  simp only [Tx.Rollback, hd, ho, notify]
  split <;> simp_all

theorem txRollback_frame (tx : Tx σ) (s : State σ) :
    (Tx.Rollback tx s).state.drivers = s.drivers ∧
      (∀ drv, s.drivers[tx.driver]? = some drv → (∀ key, drv.callbacks.get key = none) →
        (Tx.Rollback tx s).state.history = s.history) := by
  cases ho : tx.origin with
  | none => simp [Tx.Rollback, ho]
  | some o =>
    cases hd : s.drivers[tx.driver]? with
    | none => simp [Tx.Rollback, ho, hd]
    | some drv =>
      rw [txRollback_eq tx s drv o hd ho]
      refine ⟨notify_drivers _ _ _ _ _, ?_⟩
      intro drv0 h0 hempty
      cases h0
      simp only [notify_none _ _ _ _ _ (hempty _)]

theorem stmtClose_eq (stmt : Stmt σ) (s : State σ) (drv : Driver σ) (o : OriginStmt σ)
    (hd : s.drivers[stmt.driver]? = some drv) (ho : stmt.origin = some o) :
    Stmt.Close stmt s =
      { result :=
          if (notify drv OnConnBegin (Clock.now s.world) (o.Close s.world).1
            { s with world := (o.Close s.world).2 }).2 = true
          then some (o.Close s.world).1
          else none,
        state :=
          (notify drv OnConnBegin (Clock.now s.world) (o.Close s.world).1
            { s with world := (o.Close s.world).2 }).1 } := by
  simp only [Stmt.Close, hd, ho, notify]
  split <;> simp_all

theorem stmtClose_frame (stmt : Stmt σ) (s : State σ) :
    (Stmt.Close stmt s).state.drivers = s.drivers ∧
      (∀ drv, s.drivers[stmt.driver]? = some drv → (∀ key, drv.callbacks.get key = none) →
        (Stmt.Close stmt s).state.history = s.history) := by
  cases ho : stmt.origin with
  | none => simp [Stmt.Close, ho]
  | some o =>
    cases hd : s.drivers[stmt.driver]? with
    | none => simp [Stmt.Close, ho, hd]
    | some drv =>
      rw [stmtClose_eq stmt s drv o hd ho]
      refine ⟨notify_drivers _ _ _ _ _, ?_⟩
      intro drv0 h0 hempty
      cases h0
      simp only [notify_none _ _ _ _ _ (hempty _)]

theorem stmtExec_eq (stmt : Stmt σ) (args : List Value) (s : State σ) (drv : Driver σ) (o : OriginStmt σ)
    (hd : s.drivers[stmt.driver]? = some drv) (ho : stmt.origin = some o) :
    Stmt.Exec stmt args s =
      { result :=
          if (notify drv OnStmtExec (Clock.now s.world) (o.Exec args s.world).1.2
            { s with world := (o.Exec args s.world).2 }).2 = true
          then some (o.Exec args s.world).1
          else none,
        state :=
          (notify drv OnStmtExec (Clock.now s.world) (o.Exec args s.world).1.2
            { s with world := (o.Exec args s.world).2 }).1 } := by
  simp only [Stmt.Exec, hd, ho, notify]
  split <;> simp_all

theorem stmtExec_frame (stmt : Stmt σ) (args : List Value) (s : State σ) :
    (Stmt.Exec stmt args s).state.drivers = s.drivers ∧
      (∀ drv, s.drivers[stmt.driver]? = some drv → (∀ key, drv.callbacks.get key = none) →
        (Stmt.Exec stmt args s).state.history = s.history) := by
  cases ho : stmt.origin with
  | none => simp [Stmt.Exec, ho]
  | some o =>
    cases hd : s.drivers[stmt.driver]? with
    | none => simp [Stmt.Exec, ho, hd]
    | some drv =>
      rw [stmtExec_eq stmt args s drv o hd ho]
      refine ⟨notify_drivers _ _ _ _ _, ?_⟩
      intro drv0 h0 hempty
      cases h0
      simp only [notify_none _ _ _ _ _ (hempty _)]

theorem stmtQuery_eq (stmt : Stmt σ) (args : List Value) (s : State σ) (drv : Driver σ) (o : OriginStmt σ)
    (hd : s.drivers[stmt.driver]? = some drv) (ho : stmt.origin = some o) :
    Stmt.Query stmt args s =
      { result :=
          if (notify drv OnStmtQuery (Clock.now s.world) (o.Query args s.world).1.2
            { s with world := (o.Query args s.world).2 }).2 = true
          then some (o.Query args s.world).1
          else none,
        state :=
          (notify drv OnStmtQuery (Clock.now s.world) (o.Query args s.world).1.2
            { s with world := (o.Query args s.world).2 }).1 } := by
  simp only [Stmt.Query, hd, ho, notify]
  split <;> simp_all

theorem stmtQuery_frame (stmt : Stmt σ) (args : List Value) (s : State σ) :
    (Stmt.Query stmt args s).state.drivers = s.drivers ∧
      (∀ drv, s.drivers[stmt.driver]? = some drv → (∀ key, drv.callbacks.get key = none) →
        (Stmt.Query stmt args s).state.history = s.history) := by
  cases ho : stmt.origin with
  | none => simp [Stmt.Query, ho]
  | some o =>
    cases hd : s.drivers[stmt.driver]? with
    | none => simp [Stmt.Query, ho, hd]
    | some drv =>
      rw [stmtQuery_eq stmt args s drv o hd ho]
      refine ⟨notify_drivers _ _ _ _ _, ?_⟩
      intro drv0 h0 hempty
      cases h0
      simp only [notify_none _ _ _ _ _ (hempty _)]

theorem driverOpen_eq (d : Ptr) (name : String) (s : State σ) (drv : Driver σ)
    (o : OriginDriver σ) (hd : s.drivers[d]? = some drv) (ho : drv.origin = some o) :
    Driver.Open d name s =
      { result :=
          if (notify drv OnDriverOpen (Clock.now s.world) (o.Open name s.world).1.2
            { s with world := (o.Open name s.world).2 }).2 = true
          then some ({ driver := d, origin := (o.Open name s.world).1.1 }, none)
          else none,
        state :=
          (notify drv OnDriverOpen (Clock.now s.world) (o.Open name s.world).1.2
            { s with world := (o.Open name s.world).2 }).1 } := by
  simp only [Driver.Open, hd, ho, notify]
  split <;> simp_all

theorem driverOpen_frame (d : Ptr) (name : String) (s : State σ) :
    (Driver.Open d name s).state.drivers = s.drivers ∧
      (∀ drv, s.drivers[d]? = some drv → (∀ key, drv.callbacks.get key = none) →
        (Driver.Open d name s).state.history = s.history) ∧
      (∀ r, (Driver.Open d name s).result = some r → r.1.driver = d) := by
  cases hd : s.drivers[d]? with
  | none => simp [Driver.Open, hd]
  | some drv =>
    cases ho : drv.origin with
    | none => simp [Driver.Open, hd, ho]
    | some o =>
      rw [driverOpen_eq d name s drv o hd ho]
      refine ⟨notify_drivers _ _ _ _ _, ?_, ?_⟩
      · intro drv0 h0 hempty
        cases h0
        simp only [notify_none _ _ _ _ _ (hempty _)]
      · intro r hr
        split at hr
        · cases hr; rfl
        · cases hr

theorem connBegin_wrapper (cn : Conn σ) (s : State σ) (tx : Tx σ) (e : Error)
    (h : (Conn.Begin cn s).result = some (TxValue.wrapper tx, e)) : tx.driver = cn.driver := by
  cases ho : cn.origin with
  | none => simp [Conn.Begin, ho] at h
  | some o =>
    cases hd : s.drivers[cn.driver]? with
    | none => simp [Conn.Begin, ho, hd] at h
    | some drv =>
      rw [connBegin_eq cn s drv o hd ho] at h
      split at h
      · split at h
        · simp at h
        · simp only [Option.some.injEq, Prod.mk.injEq, TxValue.wrapper.injEq] at h
          rw [← h.1]
      · cases h

theorem connPrepare_wrapper (cn : Conn σ) (q : String) (s : State σ) (r : Stmt σ × Error)
    (h : (Conn.Prepare cn q s).result = some r) : r.1.driver = cn.driver := by
  cases ho : cn.origin with
  | none => simp [Conn.Prepare, ho] at h
  | some o =>
    cases hd : s.drivers[cn.driver]? with
    | none => simp [Conn.Prepare, ho, hd] at h
    | some drv =>
      rw [connPrepare_eq cn q s drv o hd ho] at h
      split at h
      · cases h; rfl
      · cases h

end Methods

/-! ## Invariants of a client run -/

theorem getElem?_set_of_some {α : Type} (l : List α) (i : Nat) (a b : α)
    (h : l[i]? = some a) : (l.set i b)[i]? = some b := by
  obtain ⟨hi, _⟩ := List.getElem?_eq_some.mp h
  exact List.getElem?_set_self hi

theorem driverRegisterCallback_eq {σ : Type} (d : Ptr) (typ : String) (cb : Callback σ)
    (s : State σ) (drv : Driver σ) (entries : String → Option (Callback σ))
    (hd : s.drivers[d]? = some drv) (hm : drv.callbacks = .map entries) :
    Driver.RegisterCallback d typ cb s =
      { result := some (),
        state :=
          { s with
            drivers := s.drivers.set d
              { drv with callbacks := .map (Function.update entries typ (some cb)) } } } := by
  simp only [Driver.RegisterCallback, hd, hm]

theorem Client.new_descends {σ : Type} (d : Ptr) (s : State σ) :
    (Client.new s).Descends d := by
  simp [Client.Descends, Client.new]

section Run

variable {σ : Type} [Clock σ]

theorem Client.step_inv (d : Ptr) (c : Client σ) (k : Call) (hc : c.Descends d) :
    (c.step d k).1.Descends d ∧ (c.step d k).1.state.drivers = c.state.drivers ∧
      (∀ drv, c.state.drivers[d]? = some drv → (∀ key, drv.callbacks.get key = none) →
        (c.step d k).1.state.history = c.state.history) := by
  obtain ⟨hcn, htx, hst⟩ := hc
  cases k with
  | Open name =>
    simp only [Client.step]
    obtain ⟨f1, f2, f3⟩ := driverOpen_frame d name c.state
    cases hr : Driver.Open d name c.state with
    | mk r s1 =>
      rw [hr] at f1 f2 f3
      cases r with
      | none => exact ⟨⟨hcn, htx, hst⟩, f1, f2⟩
      | some p =>
        obtain ⟨cn, e⟩ := p
        refine ⟨⟨?_, htx, hst⟩, f1, f2⟩
        intro x hx
        simp only [List.mem_append, List.mem_singleton] at hx
        rcases hx with hx | hx
        · exact hcn x hx
        · rw [hx]; exact f3 _ rfl
  | Begin i =>
    cases hi : c.conns[i]? with
    | none =>
      have e : c.step d (Call.Begin i) = (c, false) := by simp only [Client.step, hi]
      rw [e]
      exact ⟨⟨hcn, htx, hst⟩, rfl, fun _ _ _ => rfl⟩
    | some cn =>
      simp only [Client.step, hi]
      have hcd : cn.driver = d := hcn cn (List.getElem?_mem hi)
      obtain ⟨f1, f2⟩ := connBegin_frame cn c.state
      have f3 := connBegin_wrapper cn c.state
      rw [hcd] at f2
      cases hr : Conn.Begin cn c.state with
      | mk r s1 =>
        rw [hr] at f1 f2 f3
        cases r with
        | none => exact ⟨⟨hcn, htx, hst⟩, f1, f2⟩
        | some p =>
          obtain ⟨v, e⟩ := p
          cases v with
          | origin t => exact ⟨⟨hcn, htx, hst⟩, f1, f2⟩
          | wrapper tx =>
            refine ⟨⟨hcn, ?_, hst⟩, f1, f2⟩
            intro x hx
            simp only [List.mem_append, List.mem_singleton] at hx
            rcases hx with hx | hx
            · exact htx x hx
            · rw [hx, f3 tx e rfl, hcd]
  | ConnClose i =>
    simp only [Client.step]
    cases hi : c.conns[i]? with
    | none => exact ⟨⟨hcn, htx, hst⟩, rfl, fun _ _ _ => rfl⟩
    | some cn =>
      have hcd : cn.driver = d := hcn cn (List.getElem?_mem hi)
      obtain ⟨f1, f2⟩ := connClose_frame cn c.state
      rw [hcd] at f2
      exact ⟨⟨hcn, htx, hst⟩, f1, f2⟩
  | Prepare i q =>
    cases hi : c.conns[i]? with
    | none =>
      have e : c.step d (Call.Prepare i q) = (c, false) := by simp only [Client.step, hi]
      rw [e]
      exact ⟨⟨hcn, htx, hst⟩, rfl, fun _ _ _ => rfl⟩
    | some cn =>
      simp only [Client.step, hi]
      have hcd : cn.driver = d := hcn cn (List.getElem?_mem hi)
      obtain ⟨f1, f2⟩ := connPrepare_frame cn q c.state
      have f3 := connPrepare_wrapper cn q c.state
      rw [hcd] at f2
      cases hr : Conn.Prepare cn q c.state with
      | mk r s1 =>
        rw [hr] at f1 f2 f3
        cases r with
        | none => exact ⟨⟨hcn, htx, hst⟩, f1, f2⟩
        | some p =>
          obtain ⟨stmt, e⟩ := p
          refine ⟨⟨hcn, htx, ?_⟩, f1, f2⟩
          intro x hx
          simp only [List.mem_append, List.mem_singleton] at hx
          rcases hx with hx | hx
          · exact hst x hx
          · rw [hx]; exact (f3 _ rfl).trans hcd
  | Commit i =>
    simp only [Client.step]
    cases hi : c.txs[i]? with
    | none => exact ⟨⟨hcn, htx, hst⟩, rfl, fun _ _ _ => rfl⟩
    | some tx =>
      have hcd : tx.driver = d := htx tx (List.getElem?_mem hi)
      obtain ⟨f1, f2⟩ := txCommit_frame tx c.state
      rw [hcd] at f2
      exact ⟨⟨hcn, htx, hst⟩, f1, f2⟩
  | Rollback i =>
    simp only [Client.step]
    cases hi : c.txs[i]? with
    | none => exact ⟨⟨hcn, htx, hst⟩, rfl, fun _ _ _ => rfl⟩
    | some tx =>
      have hcd : tx.driver = d := htx tx (List.getElem?_mem hi)
      obtain ⟨f1, f2⟩ := txRollback_frame tx c.state
      rw [hcd] at f2
      exact ⟨⟨hcn, htx, hst⟩, f1, f2⟩
  | StmtClose i =>
    simp only [Client.step]
    cases hi : c.stmts[i]? with
    | none => exact ⟨⟨hcn, htx, hst⟩, rfl, fun _ _ _ => rfl⟩
    | some stmt =>
      have hcd : stmt.driver = d := hst stmt (List.getElem?_mem hi)
      obtain ⟨f1, f2⟩ := stmtClose_frame stmt c.state
      rw [hcd] at f2
      exact ⟨⟨hcn, htx, hst⟩, f1, f2⟩
  | NumInput i =>
    simp only [Client.step]
    cases hi : c.stmts[i]? with
    | none => exact ⟨⟨hcn, htx, hst⟩, rfl, fun _ _ _ => rfl⟩
    | some stmt =>
      obtain ⟨f1, f2⟩ := stmtNumInput_state stmt c.state
      exact ⟨⟨hcn, htx, hst⟩, f1, fun _ _ _ => f2⟩
  | Exec i args =>
    simp only [Client.step]
    cases hi : c.stmts[i]? with
    | none => exact ⟨⟨hcn, htx, hst⟩, rfl, fun _ _ _ => rfl⟩
    | some stmt =>
      have hcd : stmt.driver = d := hst stmt (List.getElem?_mem hi)
      obtain ⟨f1, f2⟩ := stmtExec_frame stmt args c.state
      rw [hcd] at f2
      exact ⟨⟨hcn, htx, hst⟩, f1, f2⟩
  | Query i args =>
    simp only [Client.step]
    cases hi : c.stmts[i]? with
    | none => exact ⟨⟨hcn, htx, hst⟩, rfl, fun _ _ _ => rfl⟩
    | some stmt =>
      have hcd : stmt.driver = d := hst stmt (List.getElem?_mem hi)
      obtain ⟨f1, f2⟩ := stmtQuery_frame stmt args c.state
      rw [hcd] at f2
      exact ⟨⟨hcn, htx, hst⟩, f1, f2⟩

theorem Client.run_inv (d : Ptr) (calls : List Call) :
    ∀ c : Client σ, c.Descends d →
      (Client.run d calls c).Descends d ∧
        (Client.run d calls c).state.drivers = c.state.drivers ∧
        (∀ drv, c.state.drivers[d]? = some drv → (∀ key, drv.callbacks.get key = none) →
          (Client.run d calls c).state.history = c.state.history) := by
  induction calls with
  | nil => intro c hc; exact ⟨hc, rfl, fun _ _ _ => rfl⟩
  | cons k ks ih =>
    intro c hc
    obtain ⟨h1, h2, h3⟩ := Client.step_inv d c k hc
    simp only [Client.run]
    cases hs : c.step d k with
    | mk c1 b =>
      rw [hs] at h1 h2 h3
      cases b with
      | false => exact ⟨h1, h2, h3⟩
      | true =>
        obtain ⟨i1, i2, i3⟩ := ih c1 h1
        refine ⟨i1, i2.trans h2, ?_⟩
        intro drv hd hempty
        rw [i3 drv (h2 ▸ hd) hempty, h3 drv hd hempty]

end Run

/-! ## The claims -/

theorem isSome_ite {α : Type} (b : Bool) (x : α) :
    (if b = true then some x else none : Option α).isSome = b := by
  cases b <;> rfl

theorem outcome_invoked {σ α : Type} [Clock σ] (drv : Driver σ) (key : String) (err : Error)
    (w : σ) (s : State σ) (x : α) (out : Outcome α σ)
    (h : out =
      { result :=
          if (notify drv key (Clock.now s.world) err { s with world := w }).2 = true
          then some x else none,
        state := (notify drv key (Clock.now s.world) err { s with world := w }).1 }) :
    (∀ cb, drv.callbacks.get key = some cb →
      InvokedOnce cb key err w s out.state ∧
        out.result.isSome = (cb key (Clock.now w - Clock.now s.world) err w).returned) ∧
    (drv.callbacks.get key = none → out.result.isSome = true ∧ InvokedNone w s out.state) := by
  subst h
  constructor
  · intro cb hcb
    obtain ⟨h1, h2⟩ := notify_invokedOnce drv key err w s cb hcb
    exact ⟨h1, (isSome_ite _ _).trans h2⟩
  · intro hnone
    obtain ⟨h1, h2⟩ := notify_invokedNone drv key err w s hnone
    exact ⟨(isSome_ite _ _).trans h2, h1⟩

/-- C1 (the code departs from the claim): the error of a wrapped method is the
origin's error. `Driver.Open` and `Conn.Prepare` return a nil error when
the origin method returned a non-nil one. -/
theorem open_and_prepare_drop_origin_error :
    (driverFailing.Open "db" (Recorder.state driverFailing []).world).1.2
        = some "connection refused" ∧
      (Driver.Open 0 "db" (Recorder.state driverFailing [])).result.map (fun r => r.2)
        = some none ∧
      (connFailing.Prepare "q" (Recorder.state driverFailing []).world).1.2
        = some "prepare failed" ∧
      (Conn.Prepare { driver := 0, origin := some connFailing } "q"
          (Recorder.state driverFailing [])).result.map (fun r => r.2)
        = some none := by
  decide

/-- C2 (the code departs from the claim): with the counting callback under all
nine names, the count recorded under a name is the number of calls of that
name's method. On both sequences of the tests the one `Stmt.Close` call is
counted under `conn.Begin` and nothing is counted under `stmt.Close`. -/
theorem stmt_close_counted_under_conn_begin :
    operationNames.map (fun op => callCount op plainExec) = [1, 0, 0, 1, 0, 0, 1, 1, 0] ∧
      operationNames.map (testCounters plainExec) = [1, 1, 0, 1, 0, 0, 0, 1, 0] ∧
      operationNames.map (fun op => callCount op commitExec) = [1, 1, 0, 1, 1, 0, 1, 1, 0] ∧
      operationNames.map (testCounters commitExec) = [1, 2, 0, 1, 1, 0, 0, 1, 0] := by
  decide

/-- C3 (the code departs from the claim): `Stmt.Close` calls the callback
registered under `OnStmtClose`, with that name. With a callback under
`OnStmtClose` only, `Stmt.Close` calls no callback; with callbacks under
both `OnStmtClose` and `OnConnBegin`, it calls the one under `OnConnBegin`,
with the name `conn.Begin`. -/
theorem stmt_close_calls_conn_begin_callback :
    ((Stmt.Close { driver := 0, origin := some stmtFailing }
        (Recorder.state driverFailing [OnStmtClose])).result,
      (Stmt.Close { driver := 0, origin := some stmtFailing }
        (Recorder.state driverFailing [OnStmtClose])).state.world.seen,
      (Stmt.Close { driver := 0, origin := some stmtFailing }
        (Recorder.state driverFailing [OnStmtClose])).state.history)
      = (some (some "close failed"), [], []) ∧
    ((Stmt.Close { driver := 0, origin := some stmtFailing }
        (Recorder.state driverFailing [OnStmtClose, OnConnBegin])).result,
      (Stmt.Close { driver := 0, origin := some stmtFailing }
        (Recorder.state driverFailing [OnStmtClose, OnConnBegin])).state.world.seen,
      (Stmt.Close { driver := 0, origin := some stmtFailing }
        (Recorder.state driverFailing [OnStmtClose, OnConnBegin])).state.history)
      = (some (some "close failed"),
          [("conn.Begin", "conn.Begin", some "close failed")],
          [⟨"conn.Begin", 5, some "close failed"⟩]) := by
  constructor <;> rfl

/-- C4: each of `Driver.Open`, `Conn.Begin`, `Conn.Close`, `Conn.Prepare`,
`Tx.Commit`, `Tx.Rollback`, `Stmt.Exec` and `Stmt.Query`, called on a
wrapper of the driver at address `d`: when a callback is registered under
the method's own operation name, the state the method leaves is the one
reached by the origin call followed by exactly one call of that callback
with that name and the origin's error, and nothing else, and the method
returns exactly when that call returns (it panics when the callback is nil
or panics); when none is registered under that name, the method returns
and no callback is called. -/
theorem own_callback_invoked_once {σ : Type} [Clock σ] (s : State σ) (d : Ptr)
    (drv : Driver σ) (hd : s.drivers[d]? = some drv) :
    (∀ (o : OriginDriver σ) (name : String), drv.origin = some o →
      (∀ cb, drv.callbacks.get OnDriverOpen = some cb →
        InvokedOnce cb OnDriverOpen (o.Open name s.world).1.2 (o.Open name s.world).2 s
            (Driver.Open d name s).state ∧
          (Driver.Open d name s).result.isSome
            = (cb OnDriverOpen (Clock.now (o.Open name s.world).2 - Clock.now s.world)
                (o.Open name s.world).1.2 (o.Open name s.world).2).returned) ∧
      (drv.callbacks.get OnDriverOpen = none →
        (Driver.Open d name s).result.isSome = true ∧
          InvokedNone (o.Open name s.world).2 s (Driver.Open d name s).state)) ∧
    (∀ (o : OriginConn σ),
      (∀ cb, drv.callbacks.get OnConnBegin = some cb →
        InvokedOnce cb OnConnBegin (o.Begin s.world).1.2 (o.Begin s.world).2 s
            (Conn.Begin { driver := d, origin := some o } s).state ∧
          (Conn.Begin { driver := d, origin := some o } s).result.isSome
            = (cb OnConnBegin (Clock.now (o.Begin s.world).2 - Clock.now s.world)
                (o.Begin s.world).1.2 (o.Begin s.world).2).returned) ∧
      (drv.callbacks.get OnConnBegin = none →
        (Conn.Begin { driver := d, origin := some o } s).result.isSome = true ∧
          InvokedNone (o.Begin s.world).2 s
            (Conn.Begin { driver := d, origin := some o } s).state)) ∧
    (∀ (o : OriginConn σ),
      (∀ cb, drv.callbacks.get OnConnClose = some cb →
        InvokedOnce cb OnConnClose (o.Close s.world).1 (o.Close s.world).2 s
            (Conn.Close { driver := d, origin := some o } s).state ∧
          (Conn.Close { driver := d, origin := some o } s).result.isSome
            = (cb OnConnClose (Clock.now (o.Close s.world).2 - Clock.now s.world)
                (o.Close s.world).1 (o.Close s.world).2).returned) ∧
      (drv.callbacks.get OnConnClose = none →
        (Conn.Close { driver := d, origin := some o } s).result.isSome = true ∧
          InvokedNone (o.Close s.world).2 s
            (Conn.Close { driver := d, origin := some o } s).state)) ∧
    (∀ (o : OriginConn σ) (q : String),
      (∀ cb, drv.callbacks.get OnConnPrepare = some cb →
        InvokedOnce cb OnConnPrepare (o.Prepare q s.world).1.2 (o.Prepare q s.world).2 s
            (Conn.Prepare { driver := d, origin := some o } q s).state ∧
          (Conn.Prepare { driver := d, origin := some o } q s).result.isSome
            = (cb OnConnPrepare (Clock.now (o.Prepare q s.world).2 - Clock.now s.world)
                (o.Prepare q s.world).1.2 (o.Prepare q s.world).2).returned) ∧
      (drv.callbacks.get OnConnPrepare = none →
        (Conn.Prepare { driver := d, origin := some o } q s).result.isSome = true ∧
          InvokedNone (o.Prepare q s.world).2 s
            (Conn.Prepare { driver := d, origin := some o } q s).state)) ∧
    (∀ (o : OriginTx σ),
      (∀ cb, drv.callbacks.get OnTxCommit = some cb →
        InvokedOnce cb OnTxCommit (o.Commit s.world).1 (o.Commit s.world).2 s
            (Tx.Commit { driver := d, origin := some o } s).state ∧
          (Tx.Commit { driver := d, origin := some o } s).result.isSome
            = (cb OnTxCommit (Clock.now (o.Commit s.world).2 - Clock.now s.world)
                (o.Commit s.world).1 (o.Commit s.world).2).returned) ∧
      (drv.callbacks.get OnTxCommit = none →
        (Tx.Commit { driver := d, origin := some o } s).result.isSome = true ∧
          InvokedNone (o.Commit s.world).2 s
            (Tx.Commit { driver := d, origin := some o } s).state)) ∧
    (∀ (o : OriginTx σ),
      (∀ cb, drv.callbacks.get OnTxRollback = some cb →
        InvokedOnce cb OnTxRollback (o.Rollback s.world).1 (o.Rollback s.world).2 s
            (Tx.Rollback { driver := d, origin := some o } s).state ∧
          (Tx.Rollback { driver := d, origin := some o } s).result.isSome
            = (cb OnTxRollback (Clock.now (o.Rollback s.world).2 - Clock.now s.world)
                (o.Rollback s.world).1 (o.Rollback s.world).2).returned) ∧
      (drv.callbacks.get OnTxRollback = none →
        (Tx.Rollback { driver := d, origin := some o } s).result.isSome = true ∧
          InvokedNone (o.Rollback s.world).2 s
            (Tx.Rollback { driver := d, origin := some o } s).state)) ∧
    (∀ (o : OriginStmt σ) (args : List Value),
      (∀ cb, drv.callbacks.get OnStmtExec = some cb →
        InvokedOnce cb OnStmtExec (o.Exec args s.world).1.2 (o.Exec args s.world).2 s
            (Stmt.Exec { driver := d, origin := some o } args s).state ∧
          (Stmt.Exec { driver := d, origin := some o } args s).result.isSome
            = (cb OnStmtExec (Clock.now (o.Exec args s.world).2 - Clock.now s.world)
                (o.Exec args s.world).1.2 (o.Exec args s.world).2).returned) ∧
      (drv.callbacks.get OnStmtExec = none →
        (Stmt.Exec { driver := d, origin := some o } args s).result.isSome = true ∧
          InvokedNone (o.Exec args s.world).2 s
            (Stmt.Exec { driver := d, origin := some o } args s).state)) ∧
    (∀ (o : OriginStmt σ) (args : List Value),
      (∀ cb, drv.callbacks.get OnStmtQuery = some cb →
        InvokedOnce cb OnStmtQuery (o.Query args s.world).1.2 (o.Query args s.world).2 s
            (Stmt.Query { driver := d, origin := some o } args s).state ∧
          (Stmt.Query { driver := d, origin := some o } args s).result.isSome
            = (cb OnStmtQuery (Clock.now (o.Query args s.world).2 - Clock.now s.world)
                (o.Query args s.world).1.2 (o.Query args s.world).2).returned) ∧
      (drv.callbacks.get OnStmtQuery = none →
        (Stmt.Query { driver := d, origin := some o } args s).result.isSome = true ∧
          InvokedNone (o.Query args s.world).2 s
            (Stmt.Query { driver := d, origin := some o } args s).state)) := by
  refine ⟨?_, ?_, ?_, ?_, ?_, ?_, ?_, ?_⟩
  · intro o name ho
    exact outcome_invoked drv _ _ _ s _ _ (driverOpen_eq d name s drv o hd ho)
  · intro o
    exact outcome_invoked drv _ _ _ s _ _ (connBegin_eq _ s drv o hd rfl)
  · intro o
    exact outcome_invoked drv _ _ _ s _ _ (connClose_eq _ s drv o hd rfl)
  · intro o q
    exact outcome_invoked drv _ _ _ s _ _ (connPrepare_eq _ q s drv o hd rfl)
  · intro o
    exact outcome_invoked drv _ _ _ s _ _ (txCommit_eq _ s drv o hd rfl)
  · intro o
    exact outcome_invoked drv _ _ _ s _ _ (txRollback_eq _ s drv o hd rfl)
  · intro o args
    exact outcome_invoked drv _ _ _ s _ _ (stmtExec_eq _ args s drv o hd rfl)
  · intro o args
    exact outcome_invoked drv _ _ _ s _ _ (stmtQuery_eq _ args s drv o hd rfl)

/-- Witness of C4: on the recording registry with all nine names and the
failing origins, each of the eight methods calls its own callback once
with the origin's error and returns; with a panicking callback under
`conn.Close`, `Conn.Close` calls it once and panics; on the empty registry
`Tx.Commit` calls nothing. -/
theorem own_callback_invoked_once_witness :
    Recorder.full.drivers[0]?
        = some { origin := some driverFailing,
                 callbacks := .map (Recorder.registry operationNames) } ∧
      (InvokedOnce (Recorder.callback OnDriverOpen) OnDriverOpen (some "connection refused")
          { time := 105, seen := [] } Recorder.full (Driver.Open 0 "db" Recorder.full).state ∧
        (Driver.Open 0 "db" Recorder.full).result.isSome = true) ∧
      (InvokedOnce (Recorder.callback OnConnBegin) OnConnBegin (some "begin failed")
          { time := 105, seen := [] } Recorder.full
          (Conn.Begin { driver := 0, origin := some connFailing } Recorder.full).state ∧
        (Conn.Begin { driver := 0, origin := some connFailing } Recorder.full).result.isSome
          = true) ∧
      (InvokedOnce (Recorder.callback OnConnClose) OnConnClose (some "close failed")
          { time := 105, seen := [] } Recorder.full
          (Conn.Close { driver := 0, origin := some connFailing } Recorder.full).state ∧
        (Conn.Close { driver := 0, origin := some connFailing } Recorder.full).result.isSome
          = true) ∧
      (InvokedOnce (Recorder.callback OnConnPrepare) OnConnPrepare (some "prepare failed")
          { time := 105, seen := [] } Recorder.full
          (Conn.Prepare { driver := 0, origin := some connFailing } "q" Recorder.full).state ∧
        (Conn.Prepare { driver := 0, origin := some connFailing } "q"
          Recorder.full).result.isSome = true) ∧
      (InvokedOnce (Recorder.callback OnTxCommit) OnTxCommit (some "commit failed")
          { time := 105, seen := [] } Recorder.full
          (Tx.Commit { driver := 0, origin := some txFailing } Recorder.full).state ∧
        (Tx.Commit { driver := 0, origin := some txFailing } Recorder.full).result.isSome
          = true) ∧
      (InvokedOnce (Recorder.callback OnTxRollback) OnTxRollback (some "rollback failed")
          { time := 105, seen := [] } Recorder.full
          (Tx.Rollback { driver := 0, origin := some txFailing } Recorder.full).state ∧
        (Tx.Rollback { driver := 0, origin := some txFailing } Recorder.full).result.isSome
          = true) ∧
      (InvokedOnce (Recorder.callback OnStmtExec) OnStmtExec (some "exec failed")
          { time := 105, seen := [] } Recorder.full
          (Stmt.Exec { driver := 0, origin := some stmtFailing } [1, 2] Recorder.full).state ∧
        (Stmt.Exec { driver := 0, origin := some stmtFailing } [1, 2]
          Recorder.full).result.isSome = true) ∧
      (InvokedOnce (Recorder.callback OnStmtQuery) OnStmtQuery (some "query failed")
          { time := 105, seen := [] } Recorder.full
          (Stmt.Query { driver := 0, origin := some stmtFailing } [1, 2] Recorder.full).state ∧
        (Stmt.Query { driver := 0, origin := some stmtFailing } [1, 2]
          Recorder.full).result.isSome = true) ∧
      (InvokedOnce (Recorder.panicking OnConnClose) OnConnClose (some "close failed")
          { time := 105, seen := [] } Recorder.panickingCallback
          (Conn.Close { driver := 0, origin := some connFailing }
            Recorder.panickingCallback).state ∧
        (Conn.Close { driver := 0, origin := some connFailing }
          Recorder.panickingCallback).result.isSome = false) ∧
      ((Tx.Commit { driver := 0, origin := some txFailing }
          (Recorder.state driverFailing [])).result.isSome = true ∧
        InvokedNone { time := 105, seen := [] } (Recorder.state driverFailing [])
          (Tx.Commit { driver := 0, origin := some txFailing }
            (Recorder.state driverFailing [])).state) :=
  ⟨rfl,
    ((own_callback_invoked_once Recorder.full 0 _ rfl).1 driverFailing "db" rfl).1 _ rfl,
    ((own_callback_invoked_once Recorder.full 0 _ rfl).2.1 connFailing).1 _ rfl,
    ((own_callback_invoked_once Recorder.full 0 _ rfl).2.2.1 connFailing).1 _ rfl,
    ((own_callback_invoked_once Recorder.full 0 _ rfl).2.2.2.1 connFailing "q").1 _ rfl,
    ((own_callback_invoked_once Recorder.full 0 _ rfl).2.2.2.2.1 txFailing).1 _ rfl,
    ((own_callback_invoked_once Recorder.full 0 _ rfl).2.2.2.2.2.1 txFailing).1 _ rfl,
    ((own_callback_invoked_once Recorder.full 0 _ rfl).2.2.2.2.2.2.1 stmtFailing [1, 2]).1 _ rfl,
    ((own_callback_invoked_once Recorder.full 0 _ rfl).2.2.2.2.2.2.2 stmtFailing [1, 2]).1 _ rfl,
    ((own_callback_invoked_once Recorder.panickingCallback 0 _ rfl).2.2.1 connFailing).1 _ rfl,
    ((own_callback_invoked_once (Recorder.state driverFailing []) 0 _ rfl).2.2.2.2.1
      txFailing).2 rfl⟩

theorem Recorder.registry_allReturn (keys : List String) :
    (Registry.map (Recorder.registry keys)).AllReturn := by
  intro key cb h op dur err w
  simp only [Registry.get, Recorder.registry] at h
  split at h
  · cases h; rfl
  · cases h

/-- C5, refuted as stated: with the same origin and world, `Conn.Close` returns
the origin's error under the empty registry, and does not return (it
panics, after the origin call) under the registry that
`RegisterCallback(OnConnClose, nil)` leaves. -/
theorem nil_callback_makes_close_panic :
    (Recorder.state driverFailing []).world = Recorder.nilCallback.world ∧
      (Conn.Close { driver := 0, origin := some connFailing }
          (Recorder.state driverFailing [])).result = some (some "close failed") ∧
      (Conn.Close { driver := 0, origin := some connFailing } Recorder.nilCallback).result
        = none ∧
      (Conn.Close { driver := 0, origin := some connFailing }
          Recorder.nilCallback).state.world.time = 105 := by
  decide

/-- C5, amended: under a registry all of whose callbacks return (none is nil,
none panics), the empty one included, `Conn.Close`, `Tx.Commit`,
`Tx.Rollback` and `Stmt.Close` return the error the origin returned, and
`Stmt.Exec` and `Stmt.Query` the pair the origin returned; `Stmt.NumInput`
returns the origin's number under every registry; so in two states with
the same world and any two such registries the seven methods return the
same values. -/
theorem returns_independent_of_registry {σ : Type} [Clock σ] (s1 s2 : State σ)
    (d1 d2 : Ptr) (drv1 drv2 : Driver σ)
    (h1 : s1.drivers[d1]? = some drv1) (h2 : s2.drivers[d2]? = some drv2)
    (hw : s1.world = s2.world) :
    (∀ (o : OriginConn σ), drv1.callbacks.AllReturn →
      (Conn.Close { driver := d1, origin := some o } s1).result
          = some (o.Close s1.world).1 ∧
        (drv2.callbacks.AllReturn →
          (Conn.Close { driver := d1, origin := some o } s1).result
            = (Conn.Close { driver := d2, origin := some o } s2).result)) ∧
    (∀ (o : OriginTx σ), drv1.callbacks.AllReturn →
      (Tx.Commit { driver := d1, origin := some o } s1).result
          = some (o.Commit s1.world).1 ∧
        (drv2.callbacks.AllReturn →
          (Tx.Commit { driver := d1, origin := some o } s1).result
            = (Tx.Commit { driver := d2, origin := some o } s2).result)) ∧
    (∀ (o : OriginTx σ), drv1.callbacks.AllReturn →
      (Tx.Rollback { driver := d1, origin := some o } s1).result
          = some (o.Rollback s1.world).1 ∧
        (drv2.callbacks.AllReturn →
          (Tx.Rollback { driver := d1, origin := some o } s1).result
            = (Tx.Rollback { driver := d2, origin := some o } s2).result)) ∧
    (∀ (o : OriginStmt σ), drv1.callbacks.AllReturn →
      (Stmt.Close { driver := d1, origin := some o } s1).result
          = some (o.Close s1.world).1 ∧
        (drv2.callbacks.AllReturn →
          (Stmt.Close { driver := d1, origin := some o } s1).result
            = (Stmt.Close { driver := d2, origin := some o } s2).result)) ∧
    (∀ (o : OriginStmt σ) (args : List Value), drv1.callbacks.AllReturn →
      (Stmt.Exec { driver := d1, origin := some o } args s1).result
          = some (o.Exec args s1.world).1 ∧
        (drv2.callbacks.AllReturn →
          (Stmt.Exec { driver := d1, origin := some o } args s1).result
            = (Stmt.Exec { driver := d2, origin := some o } args s2).result)) ∧
    (∀ (o : OriginStmt σ) (args : List Value), drv1.callbacks.AllReturn →
      (Stmt.Query { driver := d1, origin := some o } args s1).result
          = some (o.Query args s1.world).1 ∧
        (drv2.callbacks.AllReturn →
          (Stmt.Query { driver := d1, origin := some o } args s1).result
            = (Stmt.Query { driver := d2, origin := some o } args s2).result)) ∧
    (∀ (o : OriginStmt σ),
      (Stmt.NumInput { driver := d1, origin := some o } s1).result
          = some (o.NumInput s1.world).1 ∧
        (Stmt.NumInput { driver := d1, origin := some o } s1).result
          = (Stmt.NumInput { driver := d2, origin := some o } s2).result) := by
  refine ⟨?_, ?_, ?_, ?_, ?_, ?_, ?_⟩
  · intro o hr1
    rw [connClose_eq _ s1 drv1 o h1 rfl, connClose_eq _ s2 drv2 o h2 rfl, hw]
    simp only [notify_allReturn _ _ _ _ _ hr1, if_true, true_and]
    intro hr2
    simp only [notify_allReturn _ _ _ _ _ hr2, if_true]
  · intro o hr1
    rw [txCommit_eq _ s1 drv1 o h1 rfl, txCommit_eq _ s2 drv2 o h2 rfl, hw]
    simp only [notify_allReturn _ _ _ _ _ hr1, if_true, true_and]
    intro hr2
    simp only [notify_allReturn _ _ _ _ _ hr2, if_true]
  · intro o hr1
    rw [txRollback_eq _ s1 drv1 o h1 rfl, txRollback_eq _ s2 drv2 o h2 rfl, hw]
    simp only [notify_allReturn _ _ _ _ _ hr1, if_true, true_and]
    intro hr2
    simp only [notify_allReturn _ _ _ _ _ hr2, if_true]
  · intro o hr1
    rw [stmtClose_eq _ s1 drv1 o h1 rfl, stmtClose_eq _ s2 drv2 o h2 rfl, hw]
    simp only [notify_allReturn _ _ _ _ _ hr1, if_true, true_and]
    intro hr2
    simp only [notify_allReturn _ _ _ _ _ hr2, if_true]
  · intro o args hr1
    rw [stmtExec_eq _ args s1 drv1 o h1 rfl, stmtExec_eq _ args s2 drv2 o h2 rfl, hw]
    simp only [notify_allReturn _ _ _ _ _ hr1, if_true, true_and]
    intro hr2
    simp only [notify_allReturn _ _ _ _ _ hr2, if_true]
  · intro o args hr1
    rw [stmtQuery_eq _ args s1 drv1 o h1 rfl, stmtQuery_eq _ args s2 drv2 o h2 rfl, hw]
    simp only [notify_allReturn _ _ _ _ _ hr1, if_true, true_and]
    intro hr2
    simp only [notify_allReturn _ _ _ _ _ hr2, if_true]
  · intro o
    rw [stmtNumInput_eq _ s1 o rfl, stmtNumInput_eq _ s2 o rfl, hw]
    exact ⟨rfl, rfl⟩

/-- Witness of C5 (amended): the empty registry and the recording registry with
all nine names, on the failing origins. -/
theorem returns_independent_of_registry_witness :
    (Recorder.state driverFailing []).drivers[0]?
        = some { origin := some driverFailing, callbacks := .map (Recorder.registry []) } ∧
      Recorder.full.drivers[0]?
        = some { origin := some driverFailing,
                 callbacks := .map (Recorder.registry operationNames) } ∧
      (Recorder.state driverFailing []).world = Recorder.full.world ∧
      (Registry.map (Recorder.registry [])).AllReturn ∧
      (Registry.map (Recorder.registry operationNames)).AllReturn ∧
      (Stmt.Exec { driver := 0, origin := some stmtFailing } []
          (Recorder.state driverFailing [])).result = some (some 7, some "exec failed") ∧
      (Stmt.Exec { driver := 0, origin := some stmtFailing } []
          (Recorder.state driverFailing [])).result
        = (Stmt.Exec { driver := 0, origin := some stmtFailing } [] Recorder.full).result ∧
      (Conn.Close { driver := 0, origin := some connFailing }
          (Recorder.state driverFailing [])).result
        = (Conn.Close { driver := 0, origin := some connFailing } Recorder.full).result :=
  ⟨rfl, rfl, rfl, Recorder.registry_allReturn [], Recorder.registry_allReturn operationNames,
    ((returns_independent_of_registry (Recorder.state driverFailing []) Recorder.full 0 0 _ _
      rfl rfl rfl).2.2.2.2.1 stmtFailing [] (Recorder.registry_allReturn [])).1,
    ((returns_independent_of_registry (Recorder.state driverFailing []) Recorder.full 0 0 _ _
      rfl rfl rfl).2.2.2.2.1 stmtFailing [] (Recorder.registry_allReturn [])).2
      (Recorder.registry_allReturn operationNames),
    ((returns_independent_of_registry (Recorder.state driverFailing []) Recorder.full 0 0 _ _
      rfl rfl rfl).1 connFailing (Recorder.registry_allReturn [])).2
      (Recorder.registry_allReturn operationNames)⟩

theorem notify_returns_iff {σ : Type} [Clock σ] (drv : Driver σ) (key : String) (err : Error)
    (w : σ) (s : State σ) :
    (notify drv key (Clock.now s.world) err { s with world := w }).2 = true ↔
      CallbackReturns drv key (Clock.now w - Clock.now s.world) err w := by
  unfold notify CallbackReturns
  cases hg : drv.callbacks.get key with
  | none => simp
  | some cb => simp [Callback.call]

/-- C7, refuted as stated: when the origin's `Begin` returns a transaction
together with an error, `Conn.Begin` does not return a nil transaction;
and after `RegisterCallback(OnConnBegin, nil)` it returns nothing at all. -/
theorem begin_error_returns_origin_tx :
    (connFailing.Begin (Recorder.state driverFailing []).world).1.2 = some "begin failed" ∧
      (Conn.Begin { driver := 0, origin := some connFailing }
          (Recorder.state driverFailing [])).result.map (fun r => (r.1.isNil, r.2))
        = some (false, some "begin failed") ∧
      (Conn.Begin { driver := 0, origin := some connFailing } Recorder.nilBegin).result.isSome
        = false := by
  decide

/-- C7, amended: provided the callback registered under `conn.Begin`, if there
is one, returns: when the origin's `Begin` returns a non-nil error,
`Conn.Begin` returns that error together with the transaction value the
origin returned, not wrapped (the nil transaction exactly when the origin
returned nil); when the origin returns a nil error, `Conn.Begin` returns a
nil error and a `Tx` wrapper whose origin is the origin's transaction.
When that callback is nil or panics, `Conn.Begin` panics. -/
theorem begin_returns_origin_tx_or_wrapper {σ : Type} [Clock σ] (cn : Conn σ) (s : State σ)
    (drv : Driver σ) (o : OriginConn σ)
    (hd : s.drivers[cn.driver]? = some drv) (ho : cn.origin = some o) :
    (CallbackReturns drv OnConnBegin (Clock.now (o.Begin s.world).2 - Clock.now s.world)
        (o.Begin s.world).1.2 (o.Begin s.world).2 →
      ((o.Begin s.world).1.2 ≠ none →
        (Conn.Begin cn s).result
            = some (TxValue.origin (o.Begin s.world).1.1, (o.Begin s.world).1.2) ∧
          ((Conn.Begin cn s).result.map (fun r => r.1.isNil) = some true ↔
            (o.Begin s.world).1.1 = none)) ∧
      ((o.Begin s.world).1.2 = none →
        (Conn.Begin cn s).result
          = some (TxValue.wrapper { driver := cn.driver, origin := (o.Begin s.world).1.1 },
              none))) ∧
    (¬ CallbackReturns drv OnConnBegin (Clock.now (o.Begin s.world).2 - Clock.now s.world)
        (o.Begin s.world).1.2 (o.Begin s.world).2 →
      (Conn.Begin cn s).result = none) := by
  rw [connBegin_eq cn s drv o hd ho, ← notify_returns_iff]
  constructor
  · intro hr
    simp only [hr, if_true]
    constructor
    · intro h
      simp only [h, if_true, Option.map_some, ne_eq, not_false_eq_true, true_and]
      cases (o.Begin s.world).1.1 <;> simp [TxValue.isNil]
    · intro h
      simp [h]
  · intro hr
    simp [hr]

/-- Witness of C7 (amended): the failing connection, whose `Begin` returns a
transaction and an error, and the fake connection of the tests, whose
`Begin` succeeds; no callback is registered. -/
theorem begin_returns_origin_tx_or_wrapper_witness :
    (Recorder.state driverFailing []).drivers[0]?
        = some { origin := some driverFailing, callbacks := .map (Recorder.registry []) } ∧
      (connFailing.Begin (Recorder.state driverFailing []).world).1.2 ≠ none ∧
      (Conn.Begin { driver := 0, origin := some connFailing }
          (Recorder.state driverFailing [])).result
        = some (TxValue.origin (some txFailing), some "begin failed") ∧
      ((connFake : OriginConn Recorder).Begin (Recorder.state driverFailing []).world).1.2
        = none ∧
      (Conn.Begin { driver := 0, origin := some connFake }
          (Recorder.state driverFailing [])).result
        = some (TxValue.wrapper { driver := 0, origin := some txFake }, none) :=
  ⟨rfl, by decide,
    (((begin_returns_origin_tx_or_wrapper { driver := 0, origin := some connFailing }
      (Recorder.state driverFailing []) _ connFailing rfl rfl).1
        (fun cb h => by cases h)).1 (by decide)).1,
    rfl,
    ((begin_returns_origin_tx_or_wrapper { driver := 0, origin := some connFake }
      (Recorder.state driverFailing []) _ connFake rfl rfl).1
        (fun cb h => by cases h)).2 rfl⟩

/-- C8: wrap-on-creation. On a wrapper of the driver at address `d`:
whatever `Driver.Open` and `Conn.Prepare` return, for every origin outcome,
is a wrapper whose origin is the object the origin method returned and
whose driver is `d`, and so is what `Conn.Begin` returns when the origin's
error is nil (each of them returns when its callback, if any, returns);
after any sequence of calls every wrapper the client holds has driver `d`
and the driver at `d` is as before; and `Commit` on a `Tx` obtained by
`Open` then `Begin` calls the callback registered on `d` under
`tx.Commit`, exactly once. -/
theorem wrappers_keep_origin_and_driver {σ : Type} [Clock σ] (s : State σ) (d : Ptr)
    (drv : Driver σ) (hd : s.drivers[d]? = some drv) :
    (∀ (o : OriginDriver σ) (name : String), drv.origin = some o →
      (CallbackReturns drv OnDriverOpen (Clock.now (o.Open name s.world).2 - Clock.now s.world)
          (o.Open name s.world).1.2 (o.Open name s.world).2 →
        ∃ err, (Driver.Open d name s).result
          = some ({ driver := d, origin := (o.Open name s.world).1.1 }, err)) ∧
      (∀ r, (Driver.Open d name s).result = some r →
        r.1 = { driver := d, origin := (o.Open name s.world).1.1 })) ∧
    (∀ (o : OriginConn σ) (q : String),
      (CallbackReturns drv OnConnPrepare (Clock.now (o.Prepare q s.world).2 - Clock.now s.world)
          (o.Prepare q s.world).1.2 (o.Prepare q s.world).2 →
        ∃ err, (Conn.Prepare { driver := d, origin := some o } q s).result
          = some ({ driver := d, origin := (o.Prepare q s.world).1.1 }, err)) ∧
      (∀ r, (Conn.Prepare { driver := d, origin := some o } q s).result = some r →
        r.1 = { driver := d, origin := (o.Prepare q s.world).1.1 })) ∧
    (∀ (o : OriginConn σ), (o.Begin s.world).1.2 = none →
      (CallbackReturns drv OnConnBegin (Clock.now (o.Begin s.world).2 - Clock.now s.world)
          (o.Begin s.world).1.2 (o.Begin s.world).2 →
        (Conn.Begin { driver := d, origin := some o } s).result
          = some (TxValue.wrapper { driver := d, origin := (o.Begin s.world).1.1 }, none)) ∧
      (∀ r, (Conn.Begin { driver := d, origin := some o } s).result = some r →
        r.1 = TxValue.wrapper { driver := d, origin := (o.Begin s.world).1.1 })) ∧
    (∀ calls : List Call,
      (Client.run d calls (Client.new s)).Descends d ∧
        (Client.run d calls (Client.new s)).state.drivers[d]? = some drv) ∧
    (∀ (cb : Callback σ), drv.callbacks.get OnTxCommit = some cb →
      ∀ (name : String) (cn : Conn σ) (e1 : Error) (s1 : State σ) (tx : Tx σ) (e2 : Error)
        (s2 : State σ) (otx : OriginTx σ),
        Driver.Open d name s = { result := some (cn, e1), state := s1 } →
        Conn.Begin cn s1 = { result := some (TxValue.wrapper tx, e2), state := s2 } →
        tx.origin = some otx →
        InvokedOnce cb OnTxCommit (otx.Commit s2.world).1 (otx.Commit s2.world).2 s2
            (Tx.Commit tx s2).state ∧
          (Tx.Commit tx s2).result.isSome
            = (cb OnTxCommit (Clock.now (otx.Commit s2.world).2 - Clock.now s2.world)
                (otx.Commit s2.world).1 (otx.Commit s2.world).2).returned) := by
  refine ⟨?_, ?_, ?_, ?_, ?_⟩
  · intro o name ho
    rw [driverOpen_eq d name s drv o hd ho, ← notify_returns_iff]
    constructor
    · intro hr
      exact ⟨none, by simp only [hr, if_true]⟩
    · intro r hr
      split at hr
      · cases hr; rfl
      · cases hr
  · intro o q
    rw [connPrepare_eq _ q s drv o hd rfl, ← notify_returns_iff]
    constructor
    · intro hr
      exact ⟨none, by simp only [hr, if_true]⟩
    · intro r hr
      split at hr
      · cases hr; rfl
      · cases hr
  · intro o he
    rw [connBegin_eq _ s drv o hd rfl, ← notify_returns_iff]
    constructor
    · intro hr
      simp only [hr, if_true]
      simp [he]
    · intro r hr
      split at hr
      · cases hr; simp [he]
      · cases hr
  · intro calls
    obtain ⟨h1, h2, _⟩ := Client.run_inv d calls (Client.new s) (Client.new_descends d s)
    refine ⟨h1, ?_⟩
    rw [h2]
    exact hd
  · intro cb hcb name cn e1 s1 tx e2 s2 otx hopen hbegin hotx
    obtain ⟨f1, _, f3⟩ := driverOpen_frame d name s
    rw [hopen] at f1 f3
    have hcnd : cn.driver = d := f3 _ rfl
    obtain ⟨g1, _⟩ := connBegin_frame cn s1
    have g3 := connBegin_wrapper cn s1 tx e2
    rw [hbegin] at g1 g3
    have htxd : tx.driver = d := (g3 rfl).trans hcnd
    have hd3 : s2.drivers[tx.driver]? = some drv := by
      rw [htxd, show s2.drivers = s.drivers from g1.trans f1]
      exact hd
    exact (outcome_invoked drv _ _ _ s2 _ _ (txCommit_eq tx s2 drv otx hd3 hotx)).1 cb hcb

/-- Witness of C8: the fakes of the tests behind a driver with a recording
callback under `tx.Commit`; `Open`, then `Begin`, then `Commit`. -/
theorem wrappers_keep_origin_and_driver_witness :
    (Recorder.state driverFake [OnTxCommit]).drivers[0]?
        = some { origin := some driverFake,
                 callbacks := .map (Recorder.registry [OnTxCommit]) } ∧
      Driver.Open 0 "" (Recorder.state driverFake [OnTxCommit])
        = { result := some ({ driver := 0, origin := some connFake }, none),
            state := Recorder.state driverFake [OnTxCommit] } ∧
      Conn.Begin { driver := 0, origin := some connFake } (Recorder.state driverFake [OnTxCommit])
        = { result := some (TxValue.wrapper { driver := 0, origin := some txFake }, none),
            state := Recorder.state driverFake [OnTxCommit] } ∧
      (InvokedOnce (Recorder.callback OnTxCommit) OnTxCommit none { time := 100, seen := [] }
          (Recorder.state driverFake [OnTxCommit])
          (Tx.Commit { driver := 0, origin := some txFake }
            (Recorder.state driverFake [OnTxCommit])).state ∧
        (Tx.Commit { driver := 0, origin := some txFake }
          (Recorder.state driverFake [OnTxCommit])).result.isSome = true) :=
  ⟨rfl, rfl, rfl,
    (wrappers_keep_origin_and_driver (Recorder.state driverFake [OnTxCommit]) 0 _ rfl).2.2.2.2
      (Recorder.callback OnTxCommit) rfl "" { driver := 0, origin := some connFake } none
      (Recorder.state driverFake [OnTxCommit]) { driver := 0, origin := some txFake } none
      (Recorder.state driverFake [OnTxCommit]) txFake rfl rfl rfl⟩

/-- C6, refuted as stated: on the zero value `&Driver{}`, whose map is nil,
`RegisterCallback` panics and no name is mapped to a callback afterwards;
and after two registrations under `stmt.Close` on a wrapped driver,
`Stmt.Close` calls neither callback. -/
theorem register_on_nil_map_panics :
    (Driver.RegisterCallback 0 OnConnClose (Recorder.callback "old")
        Recorder.zeroDriver).result = none ∧
      (Driver.RegisterCallback 0 OnConnClose (Recorder.callback "new")
        (Driver.RegisterCallback 0 OnConnClose (Recorder.callback "old")
          Recorder.zeroDriver).state).result = none ∧
      (Driver.RegisterCallback 0 OnConnClose (Recorder.callback "new")
        (Driver.RegisterCallback 0 OnConnClose (Recorder.callback "old")
          Recorder.zeroDriver).state).state.drivers.map
          (fun drv => (drv.callbacks.get OnConnClose).isSome) = [false] ∧
      Recorder.stmtCloseTwice.drivers.map (fun drv => (drv.callbacks.get OnStmtClose).isSome)
        = [true] ∧
      ((Stmt.Close { driver := 0, origin := some stmtFailing } Recorder.stmtCloseTwice).result,
        (Stmt.Close { driver := 0, origin := some stmtFailing }
          Recorder.stmtCloseTwice).state.world.seen,
        (Stmt.Close { driver := 0, origin := some stmtFailing }
          Recorder.stmtCloseTwice).state.history)
        = (some (some "close failed"), [], []) := by
  refine ⟨rfl, rfl, rfl, rfl, rfl⟩

/-- C6, amended: on a driver whose map is not nil (as `Wrap` makes it),
`RegisterCallback` is last-write-wins per operation name. Registering `cb1`
and then `cb2` under `n` leaves the same state as registering `cb2` alone;
in it the registry of the driver maps `n` to `cb2`, every other name as
before, and the origin, the other drivers, the world and the history are
unchanged; and each of the eight methods that consult their own name, when
that name is `n`, then calls `cb2` exactly once and nothing else (and
returns exactly when that call returns). A single registration likewise
changes the entry of `n` only. -/
theorem register_callback_last_write_wins {σ : Type} [Clock σ] (s : State σ) (d : Ptr)
    (drv : Driver σ) (entries : String → Option (Callback σ))
    (hd : s.drivers[d]? = some drv) (hm : drv.callbacks = .map entries)
    (n : String) (cb1 cb2 : Callback σ) :
    Driver.RegisterCallback d n cb2 (Driver.RegisterCallback d n cb1 s).state
        = Driver.RegisterCallback d n cb2 s ∧
    (∃ s1 drv1, Driver.RegisterCallback d n cb1 s = { result := some (), state := s1 } ∧
      s1.drivers[d]? = some drv1 ∧
      drv1.callbacks.get n = some cb1 ∧
      (∀ m, m ≠ n → drv1.callbacks.get m = drv.callbacks.get m) ∧
      drv1.origin = drv.origin ∧ (∀ q, q ≠ d → s1.drivers[q]? = s.drivers[q]?) ∧
      s1.world = s.world ∧ s1.history = s.history) ∧
    (∃ s2 drv2,
      Driver.RegisterCallback d n cb2 (Driver.RegisterCallback d n cb1 s).state
        = { result := some (), state := s2 } ∧
      s2.drivers[d]? = some drv2 ∧
      drv2.callbacks.get n = some cb2 ∧
      (∀ m, m ≠ n → drv2.callbacks.get m = drv.callbacks.get m) ∧
      drv2.origin = drv.origin ∧ (∀ q, q ≠ d → s2.drivers[q]? = s.drivers[q]?) ∧
      s2.world = s.world ∧ s2.history = s.history ∧
      (n = OnDriverOpen → ∀ (o : OriginDriver σ) (name : String), drv.origin = some o →
        InvokedOnce cb2 n (o.Open name s2.world).1.2 (o.Open name s2.world).2 s2
            (Driver.Open d name s2).state ∧
          (Driver.Open d name s2).result.isSome
            = (cb2 n (Clock.now (o.Open name s2.world).2 - Clock.now s2.world)
                (o.Open name s2.world).1.2 (o.Open name s2.world).2).returned) ∧
      (n = OnConnBegin → ∀ (o : OriginConn σ),
        InvokedOnce cb2 n (o.Begin s2.world).1.2 (o.Begin s2.world).2 s2
            (Conn.Begin { driver := d, origin := some o } s2).state ∧
          (Conn.Begin { driver := d, origin := some o } s2).result.isSome
            = (cb2 n (Clock.now (o.Begin s2.world).2 - Clock.now s2.world)
                (o.Begin s2.world).1.2 (o.Begin s2.world).2).returned) ∧
      (n = OnConnClose → ∀ (o : OriginConn σ),
        InvokedOnce cb2 n (o.Close s2.world).1 (o.Close s2.world).2 s2
            (Conn.Close { driver := d, origin := some o } s2).state ∧
          (Conn.Close { driver := d, origin := some o } s2).result.isSome
            = (cb2 n (Clock.now (o.Close s2.world).2 - Clock.now s2.world)
                (o.Close s2.world).1 (o.Close s2.world).2).returned) ∧
      (n = OnConnPrepare → ∀ (o : OriginConn σ) (q : String),
        InvokedOnce cb2 n (o.Prepare q s2.world).1.2 (o.Prepare q s2.world).2 s2
            (Conn.Prepare { driver := d, origin := some o } q s2).state ∧
          (Conn.Prepare { driver := d, origin := some o } q s2).result.isSome
            = (cb2 n (Clock.now (o.Prepare q s2.world).2 - Clock.now s2.world)
                (o.Prepare q s2.world).1.2 (o.Prepare q s2.world).2).returned) ∧
      (n = OnTxCommit → ∀ (o : OriginTx σ),
        InvokedOnce cb2 n (o.Commit s2.world).1 (o.Commit s2.world).2 s2
            (Tx.Commit { driver := d, origin := some o } s2).state ∧
          (Tx.Commit { driver := d, origin := some o } s2).result.isSome
            = (cb2 n (Clock.now (o.Commit s2.world).2 - Clock.now s2.world)
                (o.Commit s2.world).1 (o.Commit s2.world).2).returned) ∧
      (n = OnTxRollback → ∀ (o : OriginTx σ),
        InvokedOnce cb2 n (o.Rollback s2.world).1 (o.Rollback s2.world).2 s2
            (Tx.Rollback { driver := d, origin := some o } s2).state ∧
          (Tx.Rollback { driver := d, origin := some o } s2).result.isSome
            = (cb2 n (Clock.now (o.Rollback s2.world).2 - Clock.now s2.world)
                (o.Rollback s2.world).1 (o.Rollback s2.world).2).returned) ∧
      (n = OnStmtExec → ∀ (o : OriginStmt σ) (args : List Value),
        InvokedOnce cb2 n (o.Exec args s2.world).1.2 (o.Exec args s2.world).2 s2
            (Stmt.Exec { driver := d, origin := some o } args s2).state ∧
          (Stmt.Exec { driver := d, origin := some o } args s2).result.isSome
            = (cb2 n (Clock.now (o.Exec args s2.world).2 - Clock.now s2.world)
                (o.Exec args s2.world).1.2 (o.Exec args s2.world).2).returned) ∧
      (n = OnStmtQuery → ∀ (o : OriginStmt σ) (args : List Value),
        InvokedOnce cb2 n (o.Query args s2.world).1.2 (o.Query args s2.world).2 s2
            (Stmt.Query { driver := d, origin := some o } args s2).state ∧
          (Stmt.Query { driver := d, origin := some o } args s2).result.isSome
            = (cb2 n (Clock.now (o.Query args s2.world).2 - Clock.now s2.world)
                (o.Query args s2.world).1.2 (o.Query args s2.world).2).returned)) := by
  have e1 := driverRegisterCallback_eq d n cb1 s drv entries hd hm
  have hd1 := getElem?_set_of_some s.drivers d drv
    { drv with callbacks := .map (Function.update entries n (some cb1)) } hd
  have e2 := driverRegisterCallback_eq d n cb2 s drv entries hd hm
  have hd2 := getElem?_set_of_some s.drivers d drv
    { drv with callbacks := .map (Function.update entries n (some cb2)) } hd
  have e12 : Driver.RegisterCallback d n cb2 (Driver.RegisterCallback d n cb1 s).state
      = Driver.RegisterCallback d n cb2 s := by
    rw [e1, e2, driverRegisterCallback_eq d n cb2 _ _ (Function.update entries n (some cb1))
      hd1 rfl]
    simp only [List.set_set, Function.update_idem]
  have hget : ∀ m, m ≠ n → ∀ cb : Callback σ,
      (Registry.map (Function.update entries n (some cb))).get m = drv.callbacks.get m := by
    intro m hmn cb
    simp [Registry.get, hm, Function.update_noteq hmn]
  refine ⟨e12, ⟨_, _, e1, hd1, ?_, fun m hmn => hget m hmn cb1, rfl, ?_, rfl, rfl⟩, ?_⟩
  · simp [Registry.get]
  · intro q hq
    exact List.getElem?_set_ne (Ne.symm hq)
  · rw [e12, e2]
    refine ⟨_, _, rfl, hd2, ?_, fun m hmn => hget m hmn cb2, rfl, ?_, rfl, rfl, ?_⟩
    · simp [Registry.get]
    · intro q hq
      exact List.getElem?_set_ne (Ne.symm hq)
    · have hcb : ∀ k, n = k →
          ({ drv with callbacks := .map (Function.update entries n (some cb2)) } :
            Driver σ).callbacks.get k = some cb2 := by
        intro k hk
        subst hk
        simp [Registry.get]
      refine ⟨?_, ?_, ?_, ?_, ?_, ?_, ?_, ?_⟩
      · intro hn o name ho
        subst hn
        exact (outcome_invoked _ _ _ _ _ _ _
          (driverOpen_eq d name _
            { drv with callbacks := .map (Function.update entries OnDriverOpen (some cb2)) }
            o hd2 ho)).1 cb2 (hcb _ rfl)
      · intro hn o
        subst hn
        exact (outcome_invoked _ _ _ _ _ _ _
          (connBegin_eq _ _ _ o hd2 rfl)).1 cb2 (hcb _ rfl)
      · intro hn o
        subst hn
        exact (outcome_invoked _ _ _ _ _ _ _
          (connClose_eq _ _ _ o hd2 rfl)).1 cb2 (hcb _ rfl)
      · intro hn o q
        subst hn
        exact (outcome_invoked _ _ _ _ _ _ _
          (connPrepare_eq _ q _ _ o hd2 rfl)).1 cb2 (hcb _ rfl)
      · intro hn o
        subst hn
        exact (outcome_invoked _ _ _ _ _ _ _
          (txCommit_eq _ _ _ o hd2 rfl)).1 cb2 (hcb _ rfl)
      · intro hn o
        subst hn
        exact (outcome_invoked _ _ _ _ _ _ _
          (txRollback_eq _ _ _ o hd2 rfl)).1 cb2 (hcb _ rfl)
      · intro hn o args
        subst hn
        exact (outcome_invoked _ _ _ _ _ _ _
          (stmtExec_eq _ args _ _ o hd2 rfl)).1 cb2 (hcb _ rfl)
      · intro hn o args
        subst hn
        exact (outcome_invoked _ _ _ _ _ _ _
          (stmtQuery_eq _ args _ _ o hd2 rfl)).1 cb2 (hcb _ rfl)

/-- Witness of C6 (amended): on the failing origins, with `conn.Close`
registered twice, first as "old" and then as "new"; `Conn.Close` then
reaches the "new" callback only. -/
theorem register_callback_last_write_wins_witness :
    (Recorder.state driverFailing []).drivers[0]?
        = some { origin := some driverFailing, callbacks := .map (Recorder.registry []) } ∧
      Driver.RegisterCallback 0 OnConnClose (Recorder.callback "new")
          (Driver.RegisterCallback 0 OnConnClose (Recorder.callback "old")
            (Recorder.state driverFailing [])).state
        = Driver.RegisterCallback 0 OnConnClose (Recorder.callback "new")
            (Recorder.state driverFailing []) ∧
      ((Conn.Close { driver := 0, origin := some connFailing }
          (Driver.RegisterCallback 0 OnConnClose (Recorder.callback "new")
            (Driver.RegisterCallback 0 OnConnClose (Recorder.callback "old")
              (Recorder.state driverFailing [])).state).state).state.world.seen,
        (Conn.Close { driver := 0, origin := some connFailing }
          (Driver.RegisterCallback 0 OnConnClose (Recorder.callback "new")
            (Driver.RegisterCallback 0 OnConnClose (Recorder.callback "old")
              (Recorder.state driverFailing [])).state).state).state.history)
        = ([("new", "conn.Close", some "close failed")],
            [⟨"conn.Close", 5, some "close failed"⟩]) :=
  ⟨rfl,
    (register_callback_last_write_wins (Recorder.state driverFailing []) 0 _ _ rfl rfl
      OnConnClose (Recorder.callback "old") (Recorder.callback "new")).1,
    rfl⟩

/-- C9: the registry of a driver returned by `Wrap` is empty; no intercepted
method changes the heap of drivers, hence no registry, whether it returns
or panics; and after any sequence of calls on a freshly wrapped driver and
its wrappers no callback has been called and the heap, with its empty
registry, is as `Wrap` left it. -/
theorem fresh_driver_calls_no_callback {σ : Type} [Clock σ] (origin : Option (OriginDriver σ))
    (s : State σ) (calls : List Call) :
    (Wrap origin s).2.drivers[(Wrap origin s).1]?
        = some { origin := origin, callbacks := .map (fun _ => none) } ∧
    (∀ key, (Registry.map (fun _ => none) : Registry σ).get key = none) ∧
    (∀ (t : State σ) (d : Ptr) (name : String),
      (Driver.Open d name t).state.drivers = t.drivers) ∧
    (∀ (t : State σ) (cn : Conn σ), (Conn.Begin cn t).state.drivers = t.drivers) ∧
    (∀ (t : State σ) (cn : Conn σ), (Conn.Close cn t).state.drivers = t.drivers) ∧
    (∀ (t : State σ) (cn : Conn σ) (q : String),
      (Conn.Prepare cn q t).state.drivers = t.drivers) ∧
    (∀ (t : State σ) (tx : Tx σ), (Tx.Commit tx t).state.drivers = t.drivers) ∧
    (∀ (t : State σ) (tx : Tx σ), (Tx.Rollback tx t).state.drivers = t.drivers) ∧
    (∀ (t : State σ) (stmt : Stmt σ), (Stmt.Close stmt t).state.drivers = t.drivers) ∧
    (∀ (t : State σ) (stmt : Stmt σ), (Stmt.NumInput stmt t).state.drivers = t.drivers) ∧
    (∀ (t : State σ) (stmt : Stmt σ) (args : List Value),
      (Stmt.Exec stmt args t).state.drivers = t.drivers) ∧
    (∀ (t : State σ) (stmt : Stmt σ) (args : List Value),
      (Stmt.Query stmt args t).state.drivers = t.drivers) ∧
    (Client.run (Wrap origin s).1 calls (Client.new (Wrap origin s).2)).state.history
        = s.history ∧
    (Client.run (Wrap origin s).1 calls (Client.new (Wrap origin s).2)).state.drivers
        = (Wrap origin s).2.drivers := by
  have hw : (Wrap origin s).2.drivers[(Wrap origin s).1]?
      = some { origin := origin, callbacks := .map (fun _ => none) } := by
    simp [Wrap]
  obtain ⟨_, h2, h3⟩ := Client.run_inv (Wrap origin s).1 calls (Client.new (Wrap origin s).2)
    (Client.new_descends _ _)
  exact ⟨hw, fun _ => rfl,
    fun t d name => (driverOpen_frame d name t).1,
    fun t cn => (connBegin_frame cn t).1,
    fun t cn => (connClose_frame cn t).1,
    fun t cn q => (connPrepare_frame cn q t).1,
    fun t tx => (txCommit_frame tx t).1,
    fun t tx => (txRollback_frame tx t).1,
    fun t stmt => (stmtClose_frame stmt t).1,
    fun t stmt => (stmtNumInput_state stmt t).1,
    fun t stmt args => (stmtExec_frame stmt args t).1,
    fun t stmt args => (stmtQuery_frame stmt args t).1,
    h3 _ hw (fun _ => rfl), h2⟩

/-- Witness of C9: the fakes of the tests behind a freshly wrapped driver; the
six calls of the transaction test are all made (the client ends up holding
one connection, one transaction and one statement), no callback is called
and the registry is still empty. -/
theorem fresh_driver_calls_no_callback_witness :
    (Client.run (Wrap (some driverFake) Recorder.empty).1 commitExec
        (Client.new (Wrap (some driverFake) Recorder.empty).2)).state.history = [] ∧
      (Client.run (Wrap (some driverFake) Recorder.empty).1 commitExec
        (Client.new (Wrap (some driverFake) Recorder.empty).2)).state.drivers.map
          (fun drv => operationNames.map (fun op => (drv.callbacks.get op).isSome))
        = [[false, false, false, false, false, false, false, false, false]] ∧
      (Client.run 0 commitExec
        (Client.new (Wrap (some driverFake) Recorder.empty).2)).conns.length = 1 ∧
      (Client.run 0 commitExec
        (Client.new (Wrap (some driverFake) Recorder.empty).2)).txs.length = 1 ∧
      (Client.run 0 commitExec
        (Client.new (Wrap (some driverFake) Recorder.empty).2)).stmts.length = 1 :=
  ⟨(fresh_driver_calls_no_callback (some driverFake) Recorder.empty
      commitExec).2.2.2.2.2.2.2.2.2.2.2.2.1,
    by rw [(fresh_driver_calls_no_callback (some driverFake) Recorder.empty
      commitExec).2.2.2.2.2.2.2.2.2.2.2.2.2]; rfl,
    rfl, rfl, rfl⟩

/-- C10, refuted as stated: the registry keys are not the lower-case strings
of the taxonomy table, and a callback registered under the literal key
`driver.open` is not called by `Driver.Open`. -/
theorem operation_names_are_not_lower_case :
    operationNames ≠
        ["driver.open", "conn.begin", "conn.close", "conn.prepare", "tx.commit", "tx.rollback",
          "stmt.close", "stmt.exec", "stmt.query"] ∧
      ((Driver.Open 0 "db" (Recorder.state driverFailing ["driver.open"])).state.world.seen,
        (Driver.Open 0 "db" (Recorder.state driverFailing ["driver.open"])).state.history)
        = ([], []) := by
  constructor
  · decide
  · rfl

/-- C10, amended: the nine registry keys are the method names as the source
spells them, `driver.Open`, `conn.Begin`, `conn.Close`, `conn.Prepare`,
`tx.Commit`, `tx.Rollback`, `stmt.Close`, `stmt.Exec`, `stmt.Query`, in
that order; and a callback registered under the literal key `driver.Open`
is called by `Driver.Open`, once, with that name (and `Driver.Open`
returns exactly when that call returns). -/
theorem operation_names_as_in_source {σ : Type} [Clock σ] (s : State σ) (d : Ptr)
    (drv : Driver σ) (o : OriginDriver σ) (cb : Callback σ) (name : String)
    (hd : s.drivers[d]? = some drv) (ho : drv.origin = some o)
    (hcb : drv.callbacks.get "driver.Open" = some cb) :
    [OnDriverOpen, OnConnBegin, OnConnClose, OnConnPrepare, OnTxCommit, OnTxRollback,
        OnStmtClose, OnStmtExec, OnStmtQuery]
      = ["driver.Open", "conn.Begin", "conn.Close", "conn.Prepare", "tx.Commit", "tx.Rollback",
          "stmt.Close", "stmt.Exec", "stmt.Query"] ∧
    InvokedOnce cb "driver.Open" (o.Open name s.world).1.2 (o.Open name s.world).2 s
        (Driver.Open d name s).state ∧
    (Driver.Open d name s).result.isSome
      = (cb "driver.Open" (Clock.now (o.Open name s.world).2 - Clock.now s.world)
          (o.Open name s.world).1.2 (o.Open name s.world).2).returned :=
  ⟨rfl, (outcome_invoked drv _ _ _ s _ _ (driverOpen_eq d name s drv o hd ho)).1 cb hcb⟩

/-- Witness of C10 (amended): a recording callback under the literal key
`driver.Open`, on the failing driver. -/
theorem operation_names_as_in_source_witness :
    (Recorder.state driverFailing ["driver.Open"]).drivers[0]?
        = some { origin := some driverFailing,
                 callbacks := .map (Recorder.registry ["driver.Open"]) } ∧
      (Registry.map (Recorder.registry ["driver.Open"])).get "driver.Open"
        = some (Recorder.callback "driver.Open") ∧
      InvokedOnce (Recorder.callback "driver.Open") "driver.Open" (some "connection refused")
        { time := 105, seen := [] } (Recorder.state driverFailing ["driver.Open"])
        (Driver.Open 0 "db" (Recorder.state driverFailing ["driver.Open"])).state ∧
      (Driver.Open 0 "db" (Recorder.state driverFailing ["driver.Open"])).result.isSome = true :=
  ⟨rfl, rfl,
    (operation_names_as_in_source (Recorder.state driverFailing ["driver.Open"]) 0 _
      driverFailing (Recorder.callback "driver.Open") "db" rfl rfl rfl).2⟩

end Sqlmon
